import Mathlib

/-!
Verification development for the conversation-orchestration core of the
humanlike-chatbot repository (Django application under `generic_chatbot/`).

The Python source is shallowly embedded as executable Lean definitions:

* pure helpers (`truncate`, `generate_system_prompt`, `moderate_message`,
  `human_like_chunks`) become Lean functions translated line by line from
  `chatbot/services/runchat.py`, `chatbot/services/moderation.py` and
  `chatbot/services/post_processing.py`;
* the stateful turn pipeline (`run_chat_round`, `run_followup_chat_round`,
  `generate_followup_message`, `save_chat_to_db`) becomes explicit state
  passing over a `ChatState` record holding the durable store, the Django
  cache (with expiry bookkeeping) and the per-process engine-instance maps;
* external collaborators (the moderation classifier, the language-model
  backends, API-key availability) are opaque parameters collected in `Env`;
  every classifier call and model invocation performed by a turn is recorded
  in an `Event` trace so that "no model call happened" is a provable fact.

Times are integers (seconds).  The durable store keeps utterances in
creation order; `created_time` is stamped from the state clock, which is
monotone across operations, so filtering the utterance list models Django
ordering by `created_time`.
-/

namespace Chatbot

/-- One `role`/`content` pair, the unit of conversation history
(`runchat.py` builds dictionaries with exactly these two keys). -/
structure Msg where
  role : String
  content : String
deriving DecidableEq

/-- `chatbot/models.py` `Persona`: a name plus free-text instructions. -/
structure Persona where
  name : String
  instructions : String
deriving DecidableEq

/-- The resolved model reference of a bot (`models.py` `Model` with its
`ModelProvider`): we keep the provider name and the model identifier, the
two fields `server/engine.py` reads. -/
structure AIModel where
  provider_name : String
  model_id : String
deriving DecidableEq

/-- `chatbot/models.py` `Bot`, restricted to the fields the orchestration
core reads.  `moderation_overrides` models the per-category threshold
override table consulted by `Bot.get_moderation_threshold`. -/
structure Bot where
  name : String
  prompt : String
  model_type : String
  model_id : String
  ai_model : AIModel
  max_transcript_length : Int
  follow_up_on_idle : Bool
  idle_time_minutes : Int
  follow_up_instruction_prompt : String
  recurring_followup : Bool
  moderation_overrides : List (String × ℚ)
deriving DecidableEq

/-- `chatbot/models.py` `Conversation`, restricted to the fields the turn
pipeline reads: its external identifier and the persona selected for its
lifetime. -/
structure Conv where
  conversation_id : String
  selected_persona : Option Persona
deriving DecidableEq

/-- `chatbot/models.py` `Utterance`.  The source stores
`chat_history_used` as a JSON string produced by `json.dumps`; the field is
modelled by the value that string deserializes to (an ordered list of
role/content pairs), so "the stored JSON deserializes to h" is the
equation `chat_history_used = some h`. -/
structure UtteranceRec where
  conversation_id : String
  speaker_id : String
  bot_name : Option String
  participant_id : Option String
  created_time : Int
  text : String
  instruction_prompt : Option String
  chat_history_used : Option (List Msg)
deriving DecidableEq

/-- The durable store: bots, conversations, and the append-only utterance
log in creation order. -/
structure DB where
  bots : List Bot
  conversations : List Conv
  utterances : List UtteranceRec
deriving DecidableEq

/-- One Django-cache entry: a value plus its absolute expiry time
(`cache.set(key, value, timeout=ttl)` stores until `now + ttl`). -/
structure CacheEntry (α : Type) where
  value : α
  expiresAt : Int
deriving DecidableEq

/-- The Django cache, split by the three key families the core uses:
`conversation_cache_<id>` (history lists), `followup_sent_<id>` (the
30-second cooldown flag) and `followup_sent_once_<id>` (the one-shot
flag).  The stored flag value is always `True` in the source, modelled by
`Bool`. -/
structure Cache where
  conv : List (String × CacheEntry (List Msg))
  cooldown : List (String × CacheEntry Bool)
  sentOnce : List (String × CacheEntry Bool)
deriving DecidableEq

/-- The language-model engine adapters `server/engine.py` can construct,
identified by provider family and model id. -/
inductive Engine where
  | openai (model : String)
  | anthropic (model : String)
  | bedrock (model : String)
deriving DecidableEq

/-- The provider/model pair an engine was constructed from. -/
def engineKeyOf : Engine → String × String
  | Engine.openai m => ("OpenAI", m)
  | Engine.anthropic m => ("Anthropic", m)
  | Engine.bedrock m => ("Bedrock", m)

/-- Whole program state threaded through the stateful operations: the
durable store, the cache, the two per-process engine-instance maps
(`engine_instances` in `runchat.py`, `followup_engine_instances` in
`followup.py`) and the current wall-clock time in seconds. -/
structure ChatState where
  db : DB
  cache : Cache
  engines : List ((String × String) × Engine)
  followupEngines : List ((String × String) × Engine)
  now : Int
deriving DecidableEq

/-- Observable external effects of one operation, in order. -/
inductive Event where
  | classifyCall (message : String)
  | modelCall (engine : Engine) (system_prompt : String) (history : List Msg) (query : String)
deriving DecidableEq

/-- Errors a turn can surface to its caller (uncaught Python exceptions of
`run_chat_round` / `run_followup_chat_round`). -/
inductive ChatError where
  | botNotFound
  | conversationNotFound
  | engineError (msg : String)
deriving DecidableEq

/-- The moderation collaborators: the global toggle (the
`ModerationSettings` singleton read by `is_moderation_enabled`) and the
external classifier, `classify(text) -> category/score mapping` in
iteration order.  A score of `none` models a `None` entry skipped by the
loop. -/
structure ModerationEnv where
  enabled : Bool
  classify : String → List (String × Option ℚ)

/-- Availability of provider credentials in the process environment
(`OPENAI_API_KEY`, `ANTHROPIC_API_KEY`, the AWS key pair). -/
structure OSEnv where
  openai_key : Bool
  anthropic_key : Bool
  aws_keys : Bool

/-- All external collaborators of a turn.  `complete e sp h q` is the
opaque model backend: the text assembled from the Kani `full_round`
messages, joined with spaces, before the final `strip()` that the caller
applies. -/
structure Env where
  moderation : ModerationEnv
  os : OSEnv
  complete : Engine → String → List Msg → String → String

deriving instance DecidableEq for Except

/-! ## Small helpers over the store and the cache -/

/-- `Bot.objects.get(name=bot_name)` (with `DoesNotExist` as `none`). -/
def getBot (db : DB) (bot_name : String) : Option Bot :=
  db.bots.find? (fun b => b.name == bot_name)

/-- `Conversation.objects.get(conversation_id=...)` (with `DoesNotExist`
as `none`). -/
def getConversation (db : DB) (conversation_id : String) : Option Conv :=
  db.conversations.find? (fun c => c.conversation_id == conversation_id)

/-- `Utterance.objects.filter(conversation=...).order_by("created_time")`:
the log is appended under a monotone clock, so filtering preserves
creation order. -/
def listUtterances (db : DB) (conversation_id : String) : List UtteranceRec :=
  db.utterances.filter (fun u => u.conversation_id == conversation_id)

/-- Rebuild a role/content history from stored utterances
(`runchat.py` lines 150-152): any `speaker_id` other than `"user"` maps to
`"assistant"`. -/
def historyFromUtterances (us : List UtteranceRec) : List Msg :=
  us.map (fun u => ⟨if u.speaker_id == "user" then "user" else "assistant", u.text⟩)

/-- Read from one cache key family, honouring expiry. -/
def cacheRead {α : Type} (l : List (String × CacheEntry α)) (key : String) (now : Int) :
    Option α :=
  match l.find? (fun p => p.1 == key) with
  | some p => if now < p.2.expiresAt then some p.2.value else none
  | none => none

/-- Write (most recent entry shadows older ones). -/
def cacheWrite {α : Type} (l : List (String × CacheEntry α)) (key : String) (v : α)
    (ttl : Int) (now : Int) : List (String × CacheEntry α) :=
  (key, ⟨v, now + ttl⟩) :: l

/-- `cache.get("conversation_cache_" + id)`. -/
def cacheGetConv (st : ChatState) (conversation_id : String) : Option (List Msg) :=
  cacheRead st.cache.conv ("conversation_cache_" ++ conversation_id) st.now

/-- `cache.set("conversation_cache_" + id, history, timeout=ttl)`. -/
def cacheSetConv (st : ChatState) (conversation_id : String) (h : List Msg) (ttl : Int) :
    ChatState :=
  let l := cacheWrite st.cache.conv ("conversation_cache_" ++ conversation_id) h ttl st.now
  { st with cache := { st.cache with conv := l } }

/-- `cache.get("followup_sent_" + id)` — the 30-second cooldown flag. -/
def cacheGetCooldown (st : ChatState) (conversation_id : String) : Option Bool :=
  cacheRead st.cache.cooldown ("followup_sent_" ++ conversation_id) st.now

/-- `cache.set("followup_sent_" + id, True, timeout=ttl)`. -/
def cacheSetCooldown (st : ChatState) (conversation_id : String) (ttl : Int) : ChatState :=
  let l := cacheWrite st.cache.cooldown ("followup_sent_" ++ conversation_id) true ttl st.now
  { st with cache := { st.cache with cooldown := l } }

/-- `cache.get("followup_sent_once_" + id)` — the one-shot flag. -/
def cacheGetOnce (st : ChatState) (conversation_id : String) : Option Bool :=
  cacheRead st.cache.sentOnce ("followup_sent_once_" ++ conversation_id) st.now

/-- `cache.set("followup_sent_once_" + id, True, timeout=ttl)`. -/
def cacheSetOnce (st : ChatState) (conversation_id : String) (ttl : Int) : ChatState :=
  let l := cacheWrite st.cache.sentOnce ("followup_sent_once_" ++ conversation_id) true ttl st.now
  { st with cache := { st.cache with sentOnce := l } }

/-- `cache.delete("followup_sent_once_" + id)`. -/
def cacheDeleteOnce (st : ChatState) (conversation_id : String) : ChatState :=
  let l := st.cache.sentOnce.filter (fun p => !(p.1 == "followup_sent_once_" ++ conversation_id))
  { st with cache := { st.cache with sentOnce := l } }

/-- Python `message.startswith(p)`. -/
def strStartsWith (s p : String) : Bool :=
  p.data.isPrefixOf s.data

/-- Python `s.strip()`: drop leading and trailing whitespace (a
structurally recursive model of `String.trim`, kept executable down to the
kernel). -/
def strTrim (s : String) : String :=
  ⟨(((s.data.dropWhile Char.isWhitespace).reverse.dropWhile Char.isWhitespace).reverse)⟩

/-- The internal follow-up marker, `followup.py` line 270. -/
def followupMarker : String := "[FOLLOW-UP REQUEST]"

/-! ## Moderation gate (`chatbot/services/moderation.py`) -/

/-- The fixed per-category default thresholds, `moderation.py` lines
50-62. -/
def moderation_default_thresholds : List (String × ℚ) :=
  [("harassment", 1/2), ("harassment/threatening", 1/10),
   ("hate", 1/2), ("hate/threatening", 1/10),
   ("self-harm", 1/5), ("self-harm/instructions", 1/2),
   ("self-harm/intent", 7/10),
   ("sexual", 1/2), ("sexual/minors", 1/5),
   ("violence", 7/10), ("violence/graphic", 4/5)]

/-- Threshold of an unknown or unlisted category. -/
def defaultThresholdFor (category : String) : ℚ :=
  match moderation_default_thresholds.find? (fun p => p.1 == category) with
  | some p => p.2
  | none => 1

/-- Modelled from the spec: `Bot.get_moderation_threshold` is called from
`moderation.py` line 47 but its definition is not among the provided
sources (only the caller is).  Per the spec, the bot threshold for a
category is the bot override when present, else the fixed documented
default for that category, else `1.0` for unknown categories — the same
table the in-source `bot is None` fallback of `moderate_message` uses. -/
def Bot.get_moderation_threshold (bot : Bot) (category : String) : ℚ :=
  match bot.moderation_overrides.find? (fun p => p.1 == category) with
  | some p => p.2
  | none => defaultThresholdFor category

/-- The threshold `moderate_message` compares against: the bot threshold
when a bot was given, else the global default table (lines 46-63). -/
def thresholdFor (bot : Option Bot) (category : String) : ℚ :=
  match bot with
  | some b => b.get_moderation_threshold category
  | none => defaultThresholdFor category

/-- The `for category, score in scores.items()` loop of `moderate_message`
(lines 43-66): skip `None` scores, compare against the bot threshold (or
the global default table when no bot was given), return the first category
whose score strictly exceeds its threshold. -/
def firstBlockedCategory (bot : Option Bot) : List (String × Option ℚ) → String
  | [] => ""
  | (category, score) :: rest =>
    match score with
    | none => firstBlockedCategory bot rest
    | some s =>
      if s > thresholdFor bot category then category
      else firstBlockedCategory bot rest

/-- `moderate_message(message, bot)` — returns the blocking category or
`""` when the message is acceptable.  When the global toggle is off it
returns `""` without consulting the classifier. -/
def moderate_message (env : ModerationEnv) (message : String) (bot : Option Bot) : String :=
  if env.enabled = false then ""
  else firstBlockedCategory bot (env.classify message)

/-! ## Engine resolution (`server/engine.py`) -/

/-- `initialize_engine(model_type, model_id)` (the name is abbreviated
here): dispatch on the legacy provider-name string, checking the matching
credentials. -/
def init_engine (os : OSEnv) (model_type model_id : String) : Except String Engine :=
  if model_type = "OpenAI" then
    if os.openai_key then Except.ok (Engine.openai model_id)
    else Except.error "Missing OPENAI_API_KEY."
  else if model_type = "Anthropic" then
    if os.anthropic_key then Except.ok (Engine.anthropic model_id)
    else Except.error "Missing ANTHROPIC_API_KEY."
  else if model_type = "Bedrock" then
    if os.aws_keys then Except.ok (Engine.bedrock model_id)
    else Except.error "Missing AWS credentials."
  else Except.error ("Unsupported model type: " ++ model_type)

/-- `initialize_engine_from_model(model)`: dispatch on
`model.provider.name` and `model.model_id`. -/
def init_engine_from_model (os : OSEnv) (m : AIModel) : Except String Engine :=
  if m.provider_name = "OpenAI" then
    if os.openai_key then Except.ok (Engine.openai m.model_id)
    else Except.error "Missing OPENAI_API_KEY."
  else if m.provider_name = "Anthropic" then
    if os.anthropic_key then Except.ok (Engine.anthropic m.model_id)
    else Except.error "Missing ANTHROPIC_API_KEY."
  else if m.provider_name = "Bedrock" then
    if os.aws_keys then Except.ok (Engine.bedrock m.model_id)
    else Except.error "Missing AWS credentials."
  else Except.error ("Unsupported model provider: " ++ m.provider_name)

/-- `get_or_create_engine(model_type, model_id, engine_instances)`:
look up the `(model_type, model_id)` key, otherwise construct and insert. -/
def get_or_create_engine (os : OSEnv) (model_type model_id : String)
    (insts : List ((String × String) × Engine)) :
    Except String (Engine × List ((String × String) × Engine)) :=
  match insts.find? (fun p => p.1 == (model_type, model_id)) with
  | some p => Except.ok (p.2, insts)
  | none =>
    match init_engine os model_type model_id with
    | Except.ok e => Except.ok (e, insts ++ [((model_type, model_id), e)])
    | Except.error s => Except.error s

/-- `get_or_create_engine_from_model(model, engine_instances)`: the key is
`(model.provider.name, model.model_id)`. -/
def get_or_create_engine_from_model (os : OSEnv) (m : AIModel)
    (insts : List ((String × String) × Engine)) :
    Except String (Engine × List ((String × String) × Engine)) :=
  match insts.find? (fun p => p.1 == (m.provider_name, m.model_id)) with
  | some p => Except.ok (p.2, insts)
  | none =>
    match init_engine_from_model os m with
    | Except.ok e => Except.ok (e, insts ++ [((m.provider_name, m.model_id), e)])
    | Except.error s => Except.error s

/-! ## Prompt composition and truncation (`chatbot/services/runchat.py`) -/

/-- `generate_system_prompt(bot, selected_persona)` (lines 20-52). -/
def generate_system_prompt (bot : Bot) (selected_persona : Option Persona) : String :=
  let system_prompt := strTrim bot.prompt
  match selected_persona with
  | none => system_prompt
  | some p =>
    (if system_prompt ≠ "" then system_prompt ++ "\n\n" else system_prompt) ++
      "Additional personality instructions:\nPersona \x27" ++ p.name ++ "\x27: " ++
      p.instructions

/-- The transcript-length policy inlined at `runchat.py` lines 163-177
(and verbatim again at `followup.py` lines 106-120): a positive limit
keeps the last `max_length` entries (Python `history[-max_length:]`), zero
clears the history, a negative limit leaves it unchanged. -/
def truncate (history : List Msg) (max_length : Int) : List Msg :=
  if max_length > 0 then history.drop (history.length - max_length.toNat)
  else if max_length = 0 then []
  else history

/-- The warning text of the moderation-blocked path (line 114). -/
def moderationWarning (blocked : String) : String :=
  "Your message was blocked by moderation due to: " ++ blocked

/-- The refusal text returned when a regular turn carries the follow-up
marker (line 102). -/
def followupRejectionText : String :=
  "I\x27m sorry, but I can\x27t process followup requests through the regular chat. Please use the appropriate followup mechanism."

/-- `save_chat_to_db(...)` (lines 55-88, duplicated in `followup.py` lines
187-220): look the conversation up and create an utterance; a missing
conversation is caught, logged, and leaves the store unchanged. -/
def save_chat_to_db (st : ChatState) (conversation_id speaker_id text : String)
    (bot_name participant_id instruction_prompt : Option String)
    (chat_history_used : Option (List Msg)) : ChatState :=
  match getConversation st.db conversation_id with
  | none => st
  | some _ =>
    { st with db :=
        { st.db with utterances := st.db.utterances ++
            [{ conversation_id := conversation_id
               speaker_id := speaker_id
               bot_name := bot_name
               participant_id := participant_id
               created_time := st.now
               text := text
               instruction_prompt := instruction_prompt
               chat_history_used := chat_history_used }] } }

/-- History retrieval (`runchat.py` lines 133-161, verbatim again in
`followup.py` lines 74-104): an empty or missing cache entry falls back to
the durable store; on success the rebuilt list is written back with a
3600-second expiry; a missing conversation is caught and yields an empty
history with no cache write. -/
def loadHistory (st : ChatState) (conversation_id : String) : List Msg × ChatState :=
  let cached := (cacheGetConv st conversation_id).getD []
  if cached = [] then
    match getConversation st.db conversation_id with
    | none => ([], st)
    | some _ =>
      let h := historyFromUtterances (listUtterances st.db conversation_id)
      (h, cacheSetConv st conversation_id h 3600)
  else (cached, st)

/-- `run_chat_round(bot_name, conversation_id, participant_id, message)`
(lines 91-249), returning the result surfaced to the caller, the final
state, and the external-call trace. -/
def run_chat_round (env : Env) (st : ChatState)
    (bot_name conversation_id participant_id message : String) :
    Except ChatError String × ChatState × List Event :=
  if strStartsWith message followupMarker then
    (Except.ok followupRejectionText, st, [])
  else
    match getBot st.db bot_name with
    | none => (Except.error ChatError.botNotFound, st, [])
    | some bot =>
      let modEvents : List Event :=
        if env.moderation.enabled then [Event.classifyCall message] else []
      let blocked := moderate_message env.moderation message (some bot)
      if blocked ≠ "" then
        let warning_text := moderationWarning blocked
        let st1 := save_chat_to_db st conversation_id "user" message
          none (some participant_id) none none
        let st2 := save_chat_to_db st1 conversation_id "assistant" warning_text
          (some bot.name) none (some bot.prompt) none
        (Except.ok warning_text, st2, modEvents)
      else
        let load := loadHistory st conversation_id
        let st1 := load.2
        let conversation_history := truncate load.1 bot.max_transcript_length ++
          [⟨"user", message⟩]
        match getConversation st1.db conversation_id with
        | none => (Except.error ChatError.conversationNotFound, st1, modEvents)
        | some conversation =>
          let system_prompt := generate_system_prompt bot conversation.selected_persona
          match get_or_create_engine_from_model env.os bot.ai_model st1.engines with
          | Except.error e => (Except.error (ChatError.engineError e), st1, modEvents)
          | Except.ok (engine, engines1) =>
            let st2 := { st1 with engines := engines1 }
            let response_text :=
              strTrim (env.complete engine system_prompt conversation_history message)
            let chat_history_json := conversation_history.dropLast
            let st3 := cacheSetConv st2 conversation_id
              (conversation_history ++ [⟨"assistant", response_text⟩]) 3600
            let st4 :=
              if strStartsWith message followupMarker then st3
              else save_chat_to_db st3 conversation_id "user" message
                none (some participant_id) none none
            let st5 := save_chat_to_db st4 conversation_id "assistant" response_text
              (some bot.name) none (some system_prompt) (some chat_history_json)
            (Except.ok response_text, st5,
              modEvents ++ [Event.modelCall engine system_prompt conversation_history message])

/-! ## Follow-up path (`chatbot/services/followup.py`) -/

/-- `get_last_user_message_time(conversation_id)` (lines 20-37): the
creation time of the most recent user-role utterance, or `none`. -/
def get_last_user_message_time (db : DB) (conversation_id : String) : Option Int :=
  (((db.utterances.filter
      (fun u => u.conversation_id == conversation_id && u.speaker_id == "user")).map
        (fun u => u.created_time)).max?)

/-- `is_user_idle(conversation_id, idle_time_minutes)` (lines 40-52):
idle iff the last user message is strictly older than the threshold; no
user message at all means not idle. -/
def is_user_idle (st : ChatState) (conversation_id : String) (idle_time_minutes : Int) :
    Bool :=
  match get_last_user_message_time st.db conversation_id with
  | none => false
  | some t => t < st.now - idle_time_minutes * 60

/-- `run_followup_chat_round(...)` (lines 55-184): like `run_chat_round`
but with no marker guard and no moderation, the engine resolved from the
legacy `model_type`/`model_id` bot fields through
`followup_engine_instances`, and only the assistant reply persisted. -/
def run_followup_chat_round (env : Env) (st : ChatState)
    (bot_name conversation_id participant_id followup_instruction : String) :
    Except ChatError String × ChatState × List Event :=
  match getBot st.db bot_name with
  | none => (Except.error ChatError.botNotFound, st, [])
  | some bot =>
    let load := loadHistory st conversation_id
    let st1 := load.2
    let conversation_history := truncate load.1 bot.max_transcript_length ++
      [⟨"user", followup_instruction⟩]
    match getConversation st1.db conversation_id with
    | none => (Except.error ChatError.conversationNotFound, st1, [])
    | some conversation =>
      let system_prompt := generate_system_prompt bot conversation.selected_persona
      match get_or_create_engine env.os bot.model_type bot.model_id st1.followupEngines with
      | Except.error e => (Except.error (ChatError.engineError e), st1, [])
      | Except.ok (engine, engines1) =>
        let st2 := { st1 with followupEngines := engines1 }
        let response_text :=
          strTrim (env.complete engine system_prompt conversation_history followup_instruction)
        let chat_history_json := conversation_history.dropLast
        let st3 := cacheSetConv st2 conversation_id
          (conversation_history ++ [⟨"assistant", response_text⟩]) 3600
        let st4 := save_chat_to_db st3 conversation_id "assistant" response_text
          (some bot.name) none (some system_prompt) (some chat_history_json)
        (Except.ok response_text, st4,
          [Event.modelCall engine system_prompt conversation_history followup_instruction])

/-- The message `str(e)` produces for the exceptions
`generate_followup_message` catches generically. -/
def chatErrorMessage : ChatError → String
  | ChatError.botNotFound => "Bot matching query does not exist."
  | ChatError.conversationNotFound => "Conversation matching query does not exist."
  | ChatError.engineError m => m

/-- `generate_followup_message(bot_name, conversation_id, participant_id)`
(lines 223-286): the idle-follow-up decision procedure, returning
`(reply or none, error text or none)`. -/
def generate_followup_message (env : Env) (st : ChatState)
    (bot_name conversation_id participant_id : String) :
    (Option String × Option String) × ChatState × List Event :=
  match getBot st.db bot_name with
  | none => ((none, some ("Bot \x27" ++ bot_name ++ "\x27 not found")), st, [])
  | some bot =>
    if bot.follow_up_on_idle = false then
      ((none, some "Follow-up not enabled for this bot"), st, [])
    else if bot.follow_up_instruction_prompt = "" then
      ((none, some "No follow-up instruction prompt configured"), st, [])
    else if is_user_idle st conversation_id bot.idle_time_minutes = false then
      ((none, some "User is not idle"), st, [])
    else if bot.recurring_followup = false ∧ (cacheGetOnce st conversation_id).isSome then
      ((none, some "Follow-up already sent for this idle period (recurring disabled)"), st, [])
    else if (cacheGetCooldown st conversation_id).isSome then
      ((none, some "Follow-up was recently sent, please wait"), st, [])
    else
      let st1 := cacheSetCooldown st conversation_id 30
      let st2 :=
        if bot.recurring_followup = false then cacheSetOnce st1 conversation_id 3600
        else st1
      let followup_instruction := followupMarker ++ " " ++ bot.follow_up_instruction_prompt
      match run_followup_chat_round env st2 bot_name conversation_id participant_id
          followup_instruction with
      | (Except.ok resp, st3, evs) => ((some resp, none), st3, evs)
      | (Except.error e, st3, evs) => ((none, some (chatErrorMessage e)), st3, evs)

/-- The reset operation of `FollowupAPIView.post` (lines 308-314): clear
the one-shot flag for a conversation. -/
def reset_followup_flag (st : ChatState) (conversation_id : String) : ChatState :=
  cacheDeleteOnce st conversation_id

/-! ## Delivery post-processing (`chatbot/services/post_processing.py`)

`human_like_chunks` first sentence-tokenizes its input with the external
`nltk` tokenizer; the embedding takes the resulting sentence list as its
input and covers the chunk-assembly loop (lines 13-36). -/

/-- Split a character list at whitespace (a structural model of
`String.split Char.isWhitespace`): accumulates the current fragment in
reverse and emits it at each whitespace character or at the end. -/
def splitWhitespace (acc : List Char) : List Char → List (List Char)
  | [] => [acc.reverse]
  | c :: cs =>
    if c.isWhitespace then acc.reverse :: splitWhitespace [] cs
    else splitWhitespace (c :: acc) cs

/-- Python `len(sent.split())`: the number of maximal nonempty
whitespace-separated words. -/
def wordCount (s : String) : Nat :=
  ((splitWhitespace [] s.data).filter (fun w => w ≠ [])).length

/-- The chunk-assembly loop of `human_like_chunks`, carrying the pending
sentence buffer.  A short sentence (at most 6 words) on an empty buffer
becomes its own chunk; a question-bearing final sentence flushes the
buffer as one chunk and then stands alone; otherwise sentences accumulate
and flush as one chunk once two are buffered; a trailing buffer is flushed
at the end. -/
def humanLikeChunksAux (buffer : List String) : List String → List String
  | [] => if buffer = [] then [] else [String.intercalate " " buffer]
  | s :: rest =>
    let sent := strTrim s
    if wordCount sent ≤ 6 ∧ buffer = [] then
      sent :: humanLikeChunksAux [] rest
    else if sent.data.contains '?' ∧ rest = [] then
      (if buffer = [] then [] else [String.intercalate " " buffer]) ++
        sent :: humanLikeChunksAux [] rest
    else
      let buffer2 := buffer ++ [sent]
      if buffer2.length ≥ 2 then
        String.intercalate " " buffer2 :: humanLikeChunksAux [] rest
      else humanLikeChunksAux buffer2 rest

/-- `human_like_chunks` on an already sentence-tokenized input. -/
def human_like_chunks (sentences : List String) : List String :=
  humanLikeChunksAux [] sentences

/-- The same loop, but keeping each chunk as its list of (trimmed)
sentences instead of joining them with spaces — the partition that
`human_like_chunks` serializes. -/
def humanLikeChunkGroupsAux (buffer : List String) : List String → List (List String)
  | [] => if buffer = [] then [] else [buffer]
  | s :: rest =>
    let sent := strTrim s
    if wordCount sent ≤ 6 ∧ buffer = [] then
      [sent] :: humanLikeChunkGroupsAux [] rest
    else if sent.data.contains '?' ∧ rest = [] then
      (if buffer = [] then [] else [buffer]) ++
        [sent] :: humanLikeChunkGroupsAux [] rest
    else
      let buffer2 := buffer ++ [sent]
      if buffer2.length ≥ 2 then
        buffer2 :: humanLikeChunkGroupsAux [] rest
      else humanLikeChunkGroupsAux buffer2 rest

/-- The chunk partition of a sentence list. -/
def humanLikeChunkGroups (sentences : List String) : List (List String) :=
  humanLikeChunkGroupsAux [] sentences

/-! ## Concrete fixtures used by witnesses and counterexamples -/

/-- A bot whose legacy `model_type`/`model_id` pair (Anthropic) disagrees
with its `ai_model` reference (OpenAI), with a transcript limit of 1 and
non-recurring idle follow-up enabled. -/
def bot1 : Bot :=
  { name := "b", prompt := "base", model_type := "Anthropic", model_id := "claude-3"
    ai_model := { provider_name := "OpenAI", model_id := "gpt-4o-mini" }
    max_transcript_length := 1, follow_up_on_idle := true, idle_time_minutes := 2
    follow_up_instruction_prompt := "check in", recurring_followup := false
    moderation_overrides := [] }

/-- A conversation with no persona. -/
def conv1 : Conv := { conversation_id := "c", selected_persona := none }

/-- One persisted user utterance at time 0. -/
def u0 : UtteranceRec :=
  { conversation_id := "c", speaker_id := "user", bot_name := none
    participant_id := some "p", created_time := 0, text := "hello"
    instruction_prompt := none, chat_history_used := none }

/-- A cached three-message history. -/
def hist1 : List Msg := [⟨"user", "m1"⟩, ⟨"assistant", "m2"⟩, ⟨"user", "m3"⟩]

/-- Environment with global moderation disabled and a constant model
backend. -/
def env1 : Env :=
  { moderation := { enabled := false, classify := fun _ => [] }
    os := { openai_key := true, anthropic_key := true, aws_keys := true }
    complete := fun _ _ _ _ => "ok" }

/-- Environment with global moderation enabled and classifier scores
matching the specification example (harassment 0.8 first, hate 0.9
second). -/
def env2 : Env :=
  { moderation := { enabled := true
                    classify := fun _ => [("harassment", some (4/5)), ("hate", some (9/10))] }
    os := { openai_key := true, anthropic_key := true, aws_keys := true }
    complete := fun _ _ _ _ => "ok" }

/-- State at time 200 with `bot1`, conversation `c`, one user utterance at
time 0, a warm history cache and no follow-up flags. -/
def st1 : ChatState :=
  { db := { bots := [bot1], conversations := [conv1], utterances := [u0] }
    cache := { conv := [("conversation_cache_c", { value := hist1, expiresAt := 4000 })]
               cooldown := [], sentOnce := [] }
    engines := [], followupEngines := [], now := 200 }

/-- `st1` with the conversation record missing from the durable store. -/
def st2 : ChatState :=
  { st1 with db := { st1.db with conversations := [] } }

/-- A bot with an override threshold of 0 for the category "flagged", so
an integer classifier score of 1 blocks. -/
def bot2 : Bot :=
  { bot1 with moderation_overrides := [("flagged", 0)] }

/-- Environment with global moderation enabled and a classifier that
always reports category "flagged" with score 1. -/
def env3 : Env :=
  { moderation := { enabled := true, classify := fun _ => [("flagged", some 1)] }
    os := { openai_key := true, anthropic_key := true, aws_keys := true }
    complete := fun _ _ _ _ => "ok" }

/-- State with `bot2` and the conversation record missing from the
durable store (the stale utterance `u0` remains in the log). -/
def st3 : ChatState :=
  { st1 with db := { bots := [bot2], conversations := [], utterances := [u0] } }

/-- State with `bot2` and the conversation present (used for the
moderation-blocked persistence path). -/
def st4 : ChatState :=
  { st1 with db := { st1.db with bots := [bot2] } }

/-- The state after a first idle follow-up fired at time 200, with the
clock advanced to time 300 (when a genuine new user message arrives). -/
def st5 : ChatState :=
  { (generate_followup_message env1 st1 "b" "c" "p").2.1 with now := 300 }

/-- The state after that new user message was recorded at time 300, with
the clock advanced to time 500 (the user is idle again and the 30-second
cooldown has expired, but the one-shot flag set at time 200 still
lives). -/
def st6 : ChatState :=
  { (run_chat_round env1 st5 "b" "c" "p" "im back").2.1 with now := 500 }

/-- `st1` with the one-shot follow-up flag freshly set. -/
def st7 : ChatState := cacheSetOnce st1 "c" 3600

end Chatbot

/-! # Theorems -/

namespace Chatbot

/-! ## Generic lemmas about the state helpers -/

theorem save_chat_to_db_utterances_of_some (st : ChatState)
    (conversation_id speaker_id text : String)
    (bot_name participant_id instruction_prompt : Option String)
    (chat_history_used : Option (List Msg)) (c : Conv)
    (h : getConversation st.db conversation_id = some c) :
    (save_chat_to_db st conversation_id speaker_id text bot_name participant_id
        instruction_prompt chat_history_used).db.utterances =
      st.db.utterances ++
        [{ conversation_id := conversation_id, speaker_id := speaker_id
           bot_name := bot_name, participant_id := participant_id
           created_time := st.now, text := text
           instruction_prompt := instruction_prompt
           chat_history_used := chat_history_used }] := by
  simp [save_chat_to_db, h]

theorem mem_save_chat_to_db (st : ChatState)
    (conversation_id speaker_id text : String)
    (bot_name participant_id instruction_prompt : Option String)
    (chat_history_used : Option (List Msg)) (u : UtteranceRec)
    (h : u ∈ (save_chat_to_db st conversation_id speaker_id text bot_name participant_id
        instruction_prompt chat_history_used).db.utterances) :
    u ∈ st.db.utterances ∨ (u.text = text ∧ u.speaker_id = speaker_id) := by
  unfold save_chat_to_db at h
  rcases hc : getConversation st.db conversation_id with _ | c
  · rw [hc] at h
    exact Or.inl h
  · rw [hc] at h
    simp only [List.mem_append, List.mem_singleton] at h
    rcases h with h | h
    · exact Or.inl h
    · subst h
      exact Or.inr ⟨rfl, rfl⟩

theorem loadHistory_db (st : ChatState) (conversation_id : String) :
    (loadHistory st conversation_id).2.db = st.db := by
  unfold loadHistory
  rcases h : getConversation st.db conversation_id with _ | c <;>
    simp [h, cacheSetConv] <;> split <;> rfl

theorem loadHistory_engines (st : ChatState) (conversation_id : String) :
    (loadHistory st conversation_id).2.engines = st.engines ∧
    (loadHistory st conversation_id).2.followupEngines = st.followupEngines ∧
    (loadHistory st conversation_id).2.now = st.now := by
  unfold loadHistory
  rcases h : getConversation st.db conversation_id with _ | c <;>
    simp [h, cacheSetConv] <;> split <;> simp

/-! ## Claim C2 — moderation thresholds and first-over-threshold -/

theorem firstBlockedCategory_eq_find (bot : Option Bot) (l : List (String × Option ℚ)) :
    firstBlockedCategory bot l =
      (match l.find? (fun p =>
          match p.2 with
          | none => false
          | some s => decide (s > thresholdFor bot p.1)) with
       | some p => p.1
       | none => "") := by
  induction l with
  | nil => rfl
  | cons p rest ih =>
    rcases p with ⟨category, score⟩
    rcases score with _ | s
    · simpa [firstBlockedCategory, List.find?] using ih
    · by_cases hgt : s > thresholdFor bot category
      · simp [firstBlockedCategory, List.find?, hgt]
      · simpa [firstBlockedCategory, List.find?, hgt] using ih

/-- Claim C2: with global moderation enabled, `moderate_message` compares
each classifier score (in classifier iteration order) against the bot
threshold — the override when present, else the documented per-category
default, else 1 — and returns the first category whose score strictly
exceeds its threshold, or the empty string (allow) when none does.  The
threshold selection itself is `Bot.get_moderation_threshold`, modelled
from the spec because its definition is not among the provided sources. -/
theorem moderate_message_first_over_threshold
    (env : ModerationEnv) (message : String) (bot : Bot)
    (h : env.enabled = true) :
    moderate_message env message (some bot) =
      (match (env.classify message).find? (fun p =>
          match p.2 with
          | none => false
          | some s => decide (s > bot.get_moderation_threshold p.1)) with
       | some p => p.1
       | none => "") := by
  unfold moderate_message
  rw [h]
  simpa [thresholdFor] using firstBlockedCategory_eq_find (some bot) (env.classify message)

/-- Witness for C2, realizing the specification example: scores
harassment 0.8 and hate 0.9 with default thresholds yield "harassment"
(first over threshold in iteration order), not the higher-scoring
"hate". -/
theorem moderate_message_first_over_threshold_witness :
    env2.moderation.enabled = true ∧
    moderate_message env2.moderation "msg" (some bot1) =
      (match (env2.moderation.classify "msg").find? (fun p =>
          match p.2 with
          | none => false
          | some s => decide (s > bot1.get_moderation_threshold p.1)) with
       | some p => p.1
       | none => "") ∧
    moderate_message env2.moderation "msg" (some bot1) = "harassment" :=
  ⟨rfl, moderate_message_first_over_threshold env2.moderation "msg" bot1 rfl, by
    norm_num [moderate_message, firstBlockedCategory, thresholdFor, env2, bot1,
      Bot.get_moderation_threshold, defaultThresholdFor, moderation_default_thresholds,
      List.find?]⟩

/-! ## Claim C9 — chunking is a partition of the sentences -/

theorem intercalate_singleton (a : String) : String.intercalate " " [a] = a := rfl

theorem humanLikeChunksAux_eq_groups (ss : List String) :
    ∀ buffer, humanLikeChunksAux buffer ss =
      (humanLikeChunkGroupsAux buffer ss).map (String.intercalate " ") := by
  induction ss with
  | nil =>
    intro buffer
    by_cases h : buffer = [] <;> simp [humanLikeChunksAux, humanLikeChunkGroupsAux, h]
  | cons s rest ih =>
    intro buffer
    simp only [humanLikeChunksAux, humanLikeChunkGroupsAux]
    split
    · simp [ih, intercalate_singleton]
    · split
      · split <;> simp [ih, intercalate_singleton]
      · split <;> simp [ih, intercalate_singleton]

theorem humanLikeChunkGroupsAux_flatten (ss : List String) :
    ∀ buffer, (humanLikeChunkGroupsAux buffer ss).flatten =
      buffer ++ ss.map strTrim := by
  induction ss with
  | nil =>
    intro buffer
    by_cases h : buffer = [] <;> simp [humanLikeChunkGroupsAux, h]
  | cons s rest ih =>
    intro buffer
    simp only [humanLikeChunkGroupsAux]
    split
    · rename_i hcond
      simp [ih, hcond.2]
    · split
      · split <;> simp_all [ih]
      · split <;> simp [ih]

/-- Claim C9: `human_like_chunks` realizes the chunk partition computed by
the buffered loop — the chunks are exactly the groups of
`humanLikeChunkGroups` joined with single spaces, and concatenating the
groups in order gives back every (trimmed) sentence exactly once, in the
original order: no content is lost, duplicated or reordered. -/
theorem human_like_chunks_partition (sentences : List String) :
    human_like_chunks sentences =
      (humanLikeChunkGroups sentences).map (String.intercalate " ") ∧
    (humanLikeChunkGroups sentences).flatten = sentences.map strTrim := by
  refine ⟨humanLikeChunksAux_eq_groups sentences [], ?_⟩
  simpa using humanLikeChunkGroupsAux_flatten sentences []

/-! ## Claim C3 — the truncation law -/

/-- Claim C3: the transcript-length policy obeys the truncation law —
limit 0 empties the history, a positive limit keeps exactly the last
`L` entries (a suffix of length `min L |H|`), a negative limit keeps the
history unchanged — and `run_chat_round` applies it to the loaded history
before appending the incoming message, which is passed to the model as
the final (query) element and is never dropped by truncation. -/
theorem truncation_law :
    (∀ H : List Msg, truncate H 0 = []) ∧
    (∀ (H : List Msg) (L : Int), 0 < L →
      truncate H L <:+ H ∧ (truncate H L).length = min L.toNat H.length) ∧
    (∀ (H : List Msg) (L : Int), L < 0 → truncate H L = H) ∧
    (∀ (env : Env) (st : ChatState)
      (bot_name conversation_id participant_id message : String)
      (bot : Bot) (conv : Conv) (H : List Msg) (engine : Engine)
      (engines1 : List ((String × String) × Engine)),
      strStartsWith message followupMarker = false →
      getBot st.db bot_name = some bot →
      moderate_message env.moderation message (some bot) = "" →
      cacheGetConv st conversation_id = some H → H ≠ [] →
      getConversation st.db conversation_id = some conv →
      get_or_create_engine_from_model env.os bot.ai_model st.engines =
        Except.ok (engine, engines1) →
      (run_chat_round env st bot_name conversation_id participant_id message).2.2 =
        (if env.moderation.enabled then [Event.classifyCall message] else []) ++
          [Event.modelCall engine (generate_system_prompt bot conv.selected_persona)
            (truncate H bot.max_transcript_length ++ [⟨"user", message⟩]) message]) := by
  refine ⟨?_, ?_, ?_, ?_⟩
  · intro H
    simp [truncate]
  · intro H L hL
    constructor
    · simp only [truncate, if_pos hL]
      exact List.drop_suffix _ _
    · simp only [truncate, if_pos hL, List.length_drop]
      omega
  · intro H L hL
    have h1 : ¬ L > 0 := by omega
    have h2 : ¬ L = 0 := by omega
    simp [truncate, h1, h2]
  · intro env st bot_name conversation_id participant_id message bot conv H engine
      engines1 h1 h2 h3 h4 h4b h5 h6
    unfold run_chat_round
    rw [h1]
    simp only [Bool.false_eq_true, if_false, h2]
    rw [h3]
    simp only [ne_eq, not_true_eq_false, if_false, loadHistory, cacheGetConv] at *
    rw [h4]
    simp only [Option.getD_some, if_neg h4b]
    rw [h5, h6]

/-- Witness for C3 at the concrete fixtures. -/
theorem truncation_law_witness :
    truncate hist1 0 = [] ∧
    (truncate hist1 2 <:+ hist1 ∧
      (truncate hist1 2).length = min (Int.toNat 2) hist1.length) ∧
    truncate hist1 (-1) = hist1 ∧
    (run_chat_round env1 st1 "b" "c" "p" "hi").2.2 =
      (if env1.moderation.enabled then [Event.classifyCall "hi"] else []) ++
        [Event.modelCall (Engine.openai "gpt-4o-mini")
          (generate_system_prompt bot1 conv1.selected_persona)
          (truncate hist1 bot1.max_transcript_length ++ [⟨"user", "hi"⟩]) "hi"] :=
  ⟨truncation_law.1 hist1,
   truncation_law.2.1 hist1 2 (by decide),
   truncation_law.2.2.1 hist1 (-1) (by decide),
   truncation_law.2.2.2 env1 st1 "b" "c" "p" "hi" bot1 conv1 hist1
     (Engine.openai "gpt-4o-mini") [(("OpenAI", "gpt-4o-mini"), Engine.openai "gpt-4o-mini")]
     (by decide) rfl rfl rfl (by decide) rfl rfl⟩

/-! ## Preservation lemmas for the state operations -/

theorem save_chat_to_db_now (st : ChatState) (cid sp txt : String)
    (bn pid ip : Option String) (chu : Option (List Msg)) :
    (save_chat_to_db st cid sp txt bn pid ip chu).now = st.now := by
  unfold save_chat_to_db
  split <;> rfl

theorem save_chat_to_db_cache (st : ChatState) (cid sp txt : String)
    (bn pid ip : Option String) (chu : Option (List Msg)) :
    (save_chat_to_db st cid sp txt bn pid ip chu).cache = st.cache := by
  unfold save_chat_to_db
  split <;> rfl

theorem save_chat_to_db_conversations (st : ChatState) (cid sp txt : String)
    (bn pid ip : Option String) (chu : Option (List Msg)) :
    (save_chat_to_db st cid sp txt bn pid ip chu).db.conversations =
      st.db.conversations := by
  unfold save_chat_to_db
  split <;> rfl

theorem save_chat_to_db_bots (st : ChatState) (cid sp txt : String)
    (bn pid ip : Option String) (chu : Option (List Msg)) :
    (save_chat_to_db st cid sp txt bn pid ip chu).db.bots = st.db.bots := by
  unfold save_chat_to_db
  split <;> rfl

theorem getConversation_save_chat_to_db (st : ChatState) (cid sp txt : String)
    (bn pid ip : Option String) (chu : Option (List Msg)) (cid2 : String) :
    getConversation (save_chat_to_db st cid sp txt bn pid ip chu).db cid2 =
      getConversation st.db cid2 := by
  unfold getConversation
  rw [save_chat_to_db_conversations]

theorem cacheGetConv_save_chat_to_db (st : ChatState) (cid sp txt : String)
    (bn pid ip : Option String) (chu : Option (List Msg)) (cid2 : String) :
    cacheGetConv (save_chat_to_db st cid sp txt bn pid ip chu) cid2 =
      cacheGetConv st cid2 := by
  unfold cacheGetConv
  rw [save_chat_to_db_cache, save_chat_to_db_now]

theorem save_chat_to_db_of_none (st : ChatState) (cid sp txt : String)
    (bn pid ip : Option String) (chu : Option (List Msg))
    (h : getConversation st.db cid = none) :
    save_chat_to_db st cid sp txt bn pid ip chu = st := by
  unfold save_chat_to_db
  rw [h]

theorem cacheRead_cacheWrite_self {α : Type} (l : List (String × CacheEntry α))
    (key : String) (v : α) (ttl now : Int) (httl : 0 < ttl) :
    cacheRead (cacheWrite l key v ttl now) key now = some v := by
  unfold cacheRead cacheWrite
  simp only [List.find?]
  have hb : (key == key) = true := by simp
  rw [hb]
  simp only
  rw [if_pos (by omega)]

theorem cacheGetConv_cacheSetConv_self (st : ChatState) (cid : String)
    (h : List Msg) (ttl : Int) (httl : 0 < ttl) :
    cacheGetConv (cacheSetConv st cid h ttl) cid = some h := by
  unfold cacheGetConv cacheSetConv
  exact cacheRead_cacheWrite_self _ _ _ _ _ httl

theorem loadHistory_of_cache_hit (st : ChatState) (cid : String) (H : List Msg)
    (h : cacheGetConv st cid = some H) (hne : H ≠ []) :
    loadHistory st cid = (H, st) := by
  unfold loadHistory
  rw [h]
  simp only [Option.getD_some, if_neg hne]

theorem loadHistory_of_no_conversation (st : ChatState) (cid : String)
    (h : getConversation st.db cid = none) :
    (loadHistory st cid).2 = st := by
  unfold loadHistory
  by_cases hc : ((cacheGetConv st cid).getD []) = [] <;> simp [hc, h]

/-! ## Closed form of the successful model-invoking paths -/

theorem run_chat_round_model_path
    (env : Env) (st : ChatState)
    (bot_name conversation_id participant_id message : String)
    (bot : Bot) (conv : Conv) (H : List Msg) (engine : Engine)
    (engines1 : List ((String × String) × Engine))
    (h1 : strStartsWith message followupMarker = false)
    (h2 : getBot st.db bot_name = some bot)
    (h3 : moderate_message env.moderation message (some bot) = "")
    (h4 : cacheGetConv st conversation_id = some H)
    (h4b : H ≠ [])
    (h5 : getConversation st.db conversation_id = some conv)
    (h6 : get_or_create_engine_from_model env.os bot.ai_model st.engines =
      Except.ok (engine, engines1)) :
    run_chat_round env st bot_name conversation_id participant_id message =
      (let system_prompt := generate_system_prompt bot conv.selected_persona
       let conversation_history :=
         truncate H bot.max_transcript_length ++ [⟨"user", message⟩]
       let response_text :=
         strTrim (env.complete engine system_prompt conversation_history message)
       let user_utt : UtteranceRec :=
         { conversation_id := conversation_id, speaker_id := "user"
           bot_name := none, participant_id := some participant_id
           created_time := st.now, text := message
           instruction_prompt := none, chat_history_used := none }
       let asst_utt : UtteranceRec :=
         { conversation_id := conversation_id, speaker_id := "assistant"
           bot_name := some bot.name, participant_id := none
           created_time := st.now, text := response_text
           instruction_prompt := some system_prompt
           chat_history_used := some conversation_history.dropLast }
       let newConvCache :=
         cacheWrite st.cache.conv ("conversation_cache_" ++ conversation_id)
           (conversation_history ++ [⟨"assistant", response_text⟩]) 3600 st.now
       (Except.ok response_text,
        { st with
          db := { st.db with utterances := st.db.utterances ++ [user_utt, asst_utt] }
          cache := { st.cache with conv := newConvCache }
          engines := engines1 },
        (if env.moderation.enabled then [Event.classifyCall message] else []) ++
          [Event.modelCall engine system_prompt conversation_history message])) := by
  unfold run_chat_round
  rw [h1]
  simp only [Bool.false_eq_true, if_false, h2]
  rw [h3]
  simp only [ne_eq, not_true_eq_false, if_false, loadHistory, cacheGetConv] at *
  rw [h4]
  simp only [Option.getD_some, if_neg h4b]
  rw [h5, h6]
  simp only [save_chat_to_db, cacheSetConv, cacheWrite, getConversation] at h5 ⊢
  simp only [Bool.false_eq_true, if_false, h5]
  simp [List.append_assoc]

theorem run_followup_round_model_path
    (env : Env) (st : ChatState)
    (bot_name conversation_id participant_id followup_instruction : String)
    (bot : Bot) (conv : Conv) (H : List Msg) (engine : Engine)
    (engines1 : List ((String × String) × Engine))
    (h2 : getBot st.db bot_name = some bot)
    (h4 : cacheGetConv st conversation_id = some H)
    (h4b : H ≠ [])
    (h5 : getConversation st.db conversation_id = some conv)
    (h6 : get_or_create_engine env.os bot.model_type bot.model_id st.followupEngines =
      Except.ok (engine, engines1)) :
    run_followup_chat_round env st bot_name conversation_id participant_id
        followup_instruction =
      (let system_prompt := generate_system_prompt bot conv.selected_persona
       let conversation_history :=
         truncate H bot.max_transcript_length ++ [⟨"user", followup_instruction⟩]
       let response_text :=
         strTrim (env.complete engine system_prompt conversation_history followup_instruction)
       let asst_utt : UtteranceRec :=
         { conversation_id := conversation_id, speaker_id := "assistant"
           bot_name := some bot.name, participant_id := none
           created_time := st.now, text := response_text
           instruction_prompt := some system_prompt
           chat_history_used := some conversation_history.dropLast }
       let newConvCache :=
         cacheWrite st.cache.conv ("conversation_cache_" ++ conversation_id)
           (conversation_history ++ [⟨"assistant", response_text⟩]) 3600 st.now
       (Except.ok response_text,
        { st with
          db := { st.db with utterances := st.db.utterances ++ [asst_utt] }
          cache := { st.cache with conv := newConvCache }
          followupEngines := engines1 },
        [Event.modelCall engine system_prompt conversation_history followup_instruction])) := by
  unfold run_followup_chat_round
  rw [h2]
  simp only [loadHistory, cacheGetConv] at *
  rw [h4]
  simp only [Option.getD_some, if_neg h4b]
  rw [h5, h6]
  simp only [save_chat_to_db, cacheSetConv, cacheWrite, getConversation] at h5 ⊢
  simp only [h5]

/-! ## Claim C1 — what the cache holds after a turn -/

/-- Counterexample to C1 as stated: with the cached pre-truncation history
`hist1` (three messages) and a transcript limit of 1, a successful regular
turn leaves the cache holding only the truncated history plus the two new
messages — not the pre-truncation cached list with the new messages
appended, so the cache does not retain the full conversation history. -/
theorem cache_retains_history_counterexample :
    (run_chat_round env1 st1 "b" "c" "p" "hi").1 = Except.ok "ok" ∧
    cacheGetConv (run_chat_round env1 st1 "b" "c" "p" "hi").2.1 "c" =
      some [⟨"user", "m3"⟩, ⟨"user", "hi"⟩, ⟨"assistant", "ok"⟩] ∧
    cacheGetConv (run_chat_round env1 st1 "b" "c" "p" "hi").2.1 "c" ≠
      some (hist1 ++ [⟨"user", "hi"⟩, ⟨"assistant", "ok"⟩]) := by
  refine ⟨by decide, by decide, by decide⟩

/-- Claim C1 (amended): at the end of a successful model-invoking turn —
regular or follow-up — the conversation cache entry equals the truncated
loaded history with the new message(s) appended.  When the transcript
limit truncates, entries beyond the limit are dropped from the cache as
well, so the cache does not retain the full pre-truncation history. -/
theorem cache_after_turn_is_truncated_history :
    (∀ (env : Env) (st : ChatState)
      (bot_name conversation_id participant_id message : String)
      (bot : Bot) (conv : Conv) (H : List Msg) (engine : Engine)
      (engines1 : List ((String × String) × Engine)),
      strStartsWith message followupMarker = false →
      getBot st.db bot_name = some bot →
      moderate_message env.moderation message (some bot) = "" →
      cacheGetConv st conversation_id = some H → H ≠ [] →
      getConversation st.db conversation_id = some conv →
      get_or_create_engine_from_model env.os bot.ai_model st.engines =
        Except.ok (engine, engines1) →
      cacheGetConv (run_chat_round env st bot_name conversation_id participant_id
          message).2.1 conversation_id =
        some (truncate H bot.max_transcript_length ++
          [⟨"user", message⟩,
           ⟨"assistant", strTrim (env.complete engine
             (generate_system_prompt bot conv.selected_persona)
             (truncate H bot.max_transcript_length ++ [⟨"user", message⟩]) message)⟩])) ∧
    (∀ (env : Env) (st : ChatState)
      (bot_name conversation_id participant_id followup_instruction : String)
      (bot : Bot) (conv : Conv) (H : List Msg) (engine : Engine)
      (engines1 : List ((String × String) × Engine)),
      getBot st.db bot_name = some bot →
      cacheGetConv st conversation_id = some H → H ≠ [] →
      getConversation st.db conversation_id = some conv →
      get_or_create_engine env.os bot.model_type bot.model_id st.followupEngines =
        Except.ok (engine, engines1) →
      cacheGetConv (run_followup_chat_round env st bot_name conversation_id
          participant_id followup_instruction).2.1 conversation_id =
        some (truncate H bot.max_transcript_length ++
          [⟨"user", followup_instruction⟩,
           ⟨"assistant", strTrim (env.complete engine
             (generate_system_prompt bot conv.selected_persona)
             (truncate H bot.max_transcript_length ++ [⟨"user", followup_instruction⟩])
             followup_instruction)⟩])) := by
  constructor
  · intro env st bot_name conversation_id participant_id message bot conv H engine
      engines1 h1 h2 h3 h4 h4b h5 h6
    rw [run_chat_round_model_path env st bot_name conversation_id participant_id message
      bot conv H engine engines1 h1 h2 h3 h4 h4b h5 h6]
    simp only [cacheGetConv]
    rw [cacheRead_cacheWrite_self _ _ _ _ _ (by omega)]
    simp [List.append_assoc]
  · intro env st bot_name conversation_id participant_id followup_instruction bot conv H
      engine engines1 h2 h4 h4b h5 h6
    rw [run_followup_round_model_path env st bot_name conversation_id participant_id
      followup_instruction bot conv H engine engines1 h2 h4 h4b h5 h6]
    simp only [cacheGetConv]
    rw [cacheRead_cacheWrite_self _ _ _ _ _ (by omega)]
    simp [List.append_assoc]

/-- Witness for the amended C1 at the concrete fixtures (both turn
kinds). -/
theorem cache_after_turn_is_truncated_history_witness :
    cacheGetConv (run_chat_round env1 st1 "b" "c" "p" "hi").2.1 "c" =
      some (truncate hist1 bot1.max_transcript_length ++
        [⟨"user", "hi"⟩,
         ⟨"assistant", strTrim (env1.complete (Engine.openai "gpt-4o-mini")
           (generate_system_prompt bot1 conv1.selected_persona)
           (truncate hist1 bot1.max_transcript_length ++ [⟨"user", "hi"⟩]) "hi")⟩]) ∧
    cacheGetConv (run_followup_chat_round env1 st1 "b" "c" "p" "follow").2.1 "c" =
      some (truncate hist1 bot1.max_transcript_length ++
        [⟨"user", "follow"⟩,
         ⟨"assistant", strTrim (env1.complete (Engine.anthropic "claude-3")
           (generate_system_prompt bot1 conv1.selected_persona)
           (truncate hist1 bot1.max_transcript_length ++ [⟨"user", "follow"⟩])
           "follow")⟩]) :=
  ⟨cache_after_turn_is_truncated_history.1 env1 st1 "b" "c" "p" "hi" bot1 conv1 hist1
     (Engine.openai "gpt-4o-mini") [(("OpenAI", "gpt-4o-mini"), Engine.openai "gpt-4o-mini")]
     (by decide) rfl rfl rfl (by decide) rfl rfl,
   cache_after_turn_is_truncated_history.2 env1 st1 "b" "c" "p" "follow" bot1 conv1 hist1
     (Engine.anthropic "claude-3") [(("Anthropic", "claude-3"), Engine.anthropic "claude-3")]
     rfl rfl (by decide) rfl rfl⟩

/-! ## Claim C7 — the follow-up marker never reaches the store -/

theorem moderationWarning_no_marker (cat : String) :
    strStartsWith (moderationWarning cat) followupMarker = false := by
  simp only [strStartsWith, moderationWarning, followupMarker, String.data_append]
  rcases hb : ("[FOLLOW-UP REQUEST]".data.isPrefixOf
      ("Your message was blocked by moderation due to: ".data ++ cat.data)) with _ | _
  · rfl
  · exfalso
    have hpre := List.isPrefixOf_iff_prefix.mp hb
    rw [List.prefix_iff_eq_take, List.take_append_of_le_length (by decide)] at hpre
    exact absurd hpre (by decide)

theorem mem_utterances_run_chat_round
    (env : Env) (st : ChatState)
    (bot_name conversation_id participant_id message : String) (u : UtteranceRec)
    (hu : u ∈ (run_chat_round env st bot_name conversation_id participant_id
      message).2.1.db.utterances) :
    u ∈ st.db.utterances ∨
      (strStartsWith message followupMarker = false ∧
        (u.text = message ∨ (∃ cat, u.text = moderationWarning cat) ∨
          ∃ e sp h, u.text = strTrim (env.complete e sp h message))) := by
  rcases hmk : strStartsWith message followupMarker with _ | _
  · rcases hbot : getBot st.db bot_name with _ | bot
    · simp [run_chat_round, hmk, hbot] at hu
      exact Or.inl hu
    · by_cases hbl : moderate_message env.moderation message (some bot) = ""
      · rcases hconv : getConversation (loadHistory st conversation_id).2.db
            conversation_id with _ | conv
        · simp [run_chat_round, hmk, hbot, hbl, hconv] at hu
          rw [loadHistory_db] at hu
          exact Or.inl hu
        · rcases hengine : get_or_create_engine_from_model env.os bot.ai_model
              (loadHistory st conversation_id).2.engines with e | pe
          · simp [run_chat_round, hmk, hbot, hbl, hconv, hengine] at hu
            rw [loadHistory_db] at hu
            exact Or.inl hu
          · simp only [run_chat_round, hmk, Bool.false_eq_true, if_false, hbot, hbl,
              ne_eq, not_true_eq_false, hconv, hengine] at hu
            rcases mem_save_chat_to_db _ _ _ _ _ _ _ _ _ hu with hu2 | ⟨ht, _⟩
            · rcases mem_save_chat_to_db _ _ _ _ _ _ _ _ _ hu2 with hu3 | ⟨ht, _⟩
              · have : u ∈ (loadHistory st conversation_id).2.db.utterances := hu3
                rw [loadHistory_db] at this
                exact Or.inl this
              · exact Or.inr ⟨rfl, Or.inl ht⟩
            · exact Or.inr ⟨rfl, Or.inr (Or.inr ⟨_, _, _, ht⟩)⟩
      · simp only [run_chat_round, hmk, Bool.false_eq_true, if_false, hbot, ne_eq,
          hbl, not_false_eq_true, if_true] at hu
        rcases mem_save_chat_to_db _ _ _ _ _ _ _ _ _ hu with hu2 | ⟨ht, _⟩
        · rcases mem_save_chat_to_db _ _ _ _ _ _ _ _ _ hu2 with hu3 | ⟨ht, _⟩
          · exact Or.inl hu3
          · exact Or.inr ⟨rfl, Or.inl ht⟩
        · exact Or.inr ⟨rfl, Or.inr (Or.inl ⟨_, ht⟩)⟩
  · simp [run_chat_round, hmk] at hu
    exact Or.inl hu

theorem mem_utterances_run_followup_chat_round
    (env : Env) (st : ChatState)
    (bot_name conversation_id participant_id followup_instruction : String)
    (u : UtteranceRec)
    (hu : u ∈ (run_followup_chat_round env st bot_name conversation_id participant_id
      followup_instruction).2.1.db.utterances) :
    u ∈ st.db.utterances ∨
      (u.speaker_id = "assistant" ∧
        ∃ e sp h, u.text = strTrim (env.complete e sp h followup_instruction)) := by
  rcases hbot : getBot st.db bot_name with _ | bot
  · simp [run_followup_chat_round, hbot] at hu
    exact Or.inl hu
  · rcases hconv : getConversation (loadHistory st conversation_id).2.db
        conversation_id with _ | conv
    · simp [run_followup_chat_round, hbot, hconv] at hu
      rw [loadHistory_db] at hu
      exact Or.inl hu
    · rcases hengine : get_or_create_engine env.os bot.model_type bot.model_id
          (loadHistory st conversation_id).2.followupEngines with e | pe
      · simp [run_followup_chat_round, hbot, hconv, hengine] at hu
        rw [loadHistory_db] at hu
        exact Or.inl hu
      · simp only [run_followup_chat_round, hbot, hconv, hengine] at hu
        rcases mem_save_chat_to_db _ _ _ _ _ _ _ _ _ hu with hu2 | ⟨ht, hs⟩
        · have : u ∈ (loadHistory st conversation_id).2.db.utterances := hu2
          rw [loadHistory_db] at this
          exact Or.inl this
        · exact Or.inr ⟨hs, _, _, _, ht⟩

theorem generate_followup_pre_round_db (st : ChatState) (conversation_id : String)
    (b : Bool) :
    ((if b = false then cacheSetOnce (cacheSetCooldown st conversation_id 30)
        conversation_id 3600
      else cacheSetCooldown st conversation_id 30)).db = st.db := by
  by_cases hb : b = false <;> simp [hb, cacheSetOnce, cacheSetCooldown]

theorem mem_utterances_generate_followup_message
    (env : Env) (st : ChatState)
    (bot_name conversation_id participant_id : String) (u : UtteranceRec)
    (hu : u ∈ (generate_followup_message env st bot_name conversation_id
      participant_id).2.1.db.utterances) :
    u ∈ st.db.utterances ∨
      (u.speaker_id = "assistant" ∧
        ∃ e sp h q, u.text = strTrim (env.complete e sp h q)) := by
  unfold generate_followup_message at hu
  rcases hbot : getBot st.db bot_name with _ | bot
  · rw [hbot] at hu
    exact Or.inl hu
  · rw [hbot] at hu
    by_cases g1 : bot.follow_up_on_idle = false
    · simp only [g1, if_true] at hu
      exact Or.inl hu
    · simp only [g1, if_false] at hu
      by_cases g2 : bot.follow_up_instruction_prompt = ""
      · simp only [g2, if_true] at hu
        exact Or.inl hu
      · simp only [g2, if_false] at hu
        by_cases g3 : is_user_idle st conversation_id bot.idle_time_minutes = false
        · simp only [g3, if_true] at hu
          exact Or.inl hu
        · simp only [g3, if_false] at hu
          by_cases g4 : bot.recurring_followup = false ∧
              (cacheGetOnce st conversation_id).isSome = true
          · simp only [if_pos g4] at hu
            exact Or.inl hu
          · simp only [if_neg g4] at hu
            by_cases g6 : (cacheGetCooldown st conversation_id).isSome = true
            · simp only [if_pos g6] at hu
              exact Or.inl hu
            · simp only [if_neg g6] at hu
              rcases hr : run_followup_chat_round env
                  (if bot.recurring_followup = false then
                    cacheSetOnce (cacheSetCooldown st conversation_id 30)
                      conversation_id 3600
                  else cacheSetCooldown st conversation_id 30)
                  bot_name conversation_id participant_id
                  (followupMarker ++ " " ++ bot.follow_up_instruction_prompt)
                with ⟨r, st3, evs⟩
              rw [hr] at hu
              rcases r with r | e
              · have hu2 := mem_utterances_run_followup_chat_round env _ _ _ _ _ u
                  (by rw [hr]; exact hu)
                rw [generate_followup_pre_round_db] at hu2
                rcases hu2 with h | ⟨hs, e2, sp2, h2, ht⟩
                · exact Or.inl h
                · exact Or.inr ⟨hs, e2, sp2, h2, _, ht⟩
              · have hu2 := mem_utterances_run_followup_chat_round env _ _ _ _ _ u
                  (by rw [hr]; exact hu)
                rw [generate_followup_pre_round_db] at hu2
                rcases hu2 with h | ⟨hs, e2, sp2, h2, ht⟩
                · exact Or.inl h
                · exact Or.inr ⟨hs, e2, sp2, h2, _, ht⟩

/-- Claim C7: no persisted utterance ever begins with the internal
follow-up marker.  A regular turn whose inbound message carries the marker
is rejected immediately — identical state, no classifier call, no model
call, no persistence, no cache change; a regular turn on a clean store
keeps every persisted text marker-free (given that model replies are
marker-free); a follow-up round persists only assistant replies, never the
synthetic instruction; and the idle-follow-up operation as a whole
preserves marker-freedom of the store. -/
theorem no_followup_marker_leak :
    (∀ (env : Env) (st : ChatState)
      (bot_name conversation_id participant_id message : String),
      strStartsWith message followupMarker = true →
      run_chat_round env st bot_name conversation_id participant_id message =
        (Except.ok followupRejectionText, st, [])) ∧
    (∀ (env : Env) (st : ChatState)
      (bot_name conversation_id participant_id message : String),
      (∀ e sp h q, strStartsWith (strTrim (env.complete e sp h q)) followupMarker = false) →
      (∀ u ∈ st.db.utterances, strStartsWith u.text followupMarker = false) →
      ∀ u ∈ (run_chat_round env st bot_name conversation_id participant_id
        message).2.1.db.utterances,
        strStartsWith u.text followupMarker = false) ∧
    (∀ (env : Env) (st : ChatState)
      (bot_name conversation_id participant_id followup_instruction : String),
      ∀ u ∈ (run_followup_chat_round env st bot_name conversation_id participant_id
        followup_instruction).2.1.db.utterances,
        u ∈ st.db.utterances ∨
          (u.speaker_id = "assistant" ∧
            ∃ e sp h, u.text = strTrim (env.complete e sp h followup_instruction))) ∧
    (∀ (env : Env) (st : ChatState) (bot_name conversation_id participant_id : String),
      (∀ e sp h q, strStartsWith (strTrim (env.complete e sp h q)) followupMarker = false) →
      (∀ u ∈ st.db.utterances, strStartsWith u.text followupMarker = false) →
      ∀ u ∈ (generate_followup_message env st bot_name conversation_id
        participant_id).2.1.db.utterances,
        strStartsWith u.text followupMarker = false) := by
  refine ⟨?_, ?_, ?_, ?_⟩
  · intro env st bot_name conversation_id participant_id message hmk
    simp [run_chat_round, hmk]
  · intro env st bot_name conversation_id participant_id message hcomplete hinit u hu
    rcases mem_utterances_run_chat_round env st bot_name conversation_id participant_id
        message u hu with h | ⟨hmk, ht | ⟨cat, ht⟩ | ⟨e, sp, hh, ht⟩⟩
    · exact hinit u h
    · rw [ht]
      exact hmk
    · rw [ht]
      exact moderationWarning_no_marker cat
    · rw [ht]
      exact hcomplete e sp hh message
  · intro env st bot_name conversation_id participant_id followup_instruction u hu
    exact mem_utterances_run_followup_chat_round env st bot_name conversation_id
      participant_id followup_instruction u hu
  · intro env st bot_name conversation_id participant_id hcomplete hinit u hu
    rcases mem_utterances_generate_followup_message env st bot_name conversation_id
        participant_id u hu with h | ⟨_, e, sp, hh, q, ht⟩
    · exact hinit u h
    · rw [ht]
      exact hcomplete e sp hh q

/-- Witness for C7 at the concrete fixtures: a marker-carrying inbound
message is rejected with untouched state, and the utterances persisted by
a concrete regular turn and a concrete follow-up operation are
marker-free. -/
theorem no_followup_marker_leak_witness :
    run_chat_round env1 st1 "b" "c" "p" "[FOLLOW-UP REQUEST] sneak" =
      (Except.ok followupRejectionText, st1, []) ∧
    strStartsWith (((run_chat_round env1 st1 "b" "c" "p"
      "hi").2.1.db.utterances.getLastD u0).text) followupMarker = false ∧
    strStartsWith (((generate_followup_message env1 st1 "b" "c"
      "p").2.1.db.utterances.getLastD u0).text) followupMarker = false :=
  ⟨no_followup_marker_leak.1 env1 st1 "b" "c" "p" "[FOLLOW-UP REQUEST] sneak" (by decide),
   no_followup_marker_leak.2.1 env1 st1 "b" "c" "p" "hi"
     (fun _ _ _ _ => (by decide : strStartsWith (strTrim "ok") followupMarker = false))
     (by decide) _ (by decide),
   no_followup_marker_leak.2.2.2 env1 st1 "b" "c" "p"
     (fun _ _ _ _ => (by decide : strStartsWith (strTrim "ok") followupMarker = false))
     (by decide) _ (by decide)⟩

/-! ## Claim C5 — provenance of assistant utterances -/

/-- Claim C5: every assistant utterance persisted by the core carries in
`chat_history_used` exactly the truncated history passed to the model for
that turn, excluding the new query message.  On the model-invoking regular
path the stored value is the truncated history while the model call
received it with the query appended; on the moderation-blocked path the
field is empty and no model call happens; on the follow-up path the stored
value is again the truncated history, excluding the synthetic
instruction. -/
theorem assistant_utterance_provenance :
    (∀ (env : Env) (st : ChatState)
      (bot_name conversation_id participant_id message : String)
      (bot : Bot) (conv : Conv) (H : List Msg) (engine : Engine)
      (engines1 : List ((String × String) × Engine)),
      strStartsWith message followupMarker = false →
      getBot st.db bot_name = some bot →
      moderate_message env.moderation message (some bot) = "" →
      cacheGetConv st conversation_id = some H → H ≠ [] →
      getConversation st.db conversation_id = some conv →
      get_or_create_engine_from_model env.os bot.ai_model st.engines =
        Except.ok (engine, engines1) →
      (run_chat_round env st bot_name conversation_id participant_id
          message).2.1.db.utterances =
        st.db.utterances ++
          [⟨conversation_id, "user", none, some participant_id, st.now, message,
            none, none⟩,
           ⟨conversation_id, "assistant", some bot.name, none, st.now,
            strTrim (env.complete engine (generate_system_prompt bot conv.selected_persona)
              (truncate H bot.max_transcript_length ++ [⟨"user", message⟩]) message),
            some (generate_system_prompt bot conv.selected_persona),
            some (truncate H bot.max_transcript_length)⟩] ∧
      (run_chat_round env st bot_name conversation_id participant_id message).2.2 =
        (if env.moderation.enabled then [Event.classifyCall message] else []) ++
          [Event.modelCall engine (generate_system_prompt bot conv.selected_persona)
            (truncate H bot.max_transcript_length ++ [⟨"user", message⟩]) message]) ∧
    (∀ (env : Env) (st : ChatState)
      (bot_name conversation_id participant_id message : String)
      (bot : Bot) (conv : Conv) (cat : String),
      strStartsWith message followupMarker = false →
      getBot st.db bot_name = some bot →
      moderate_message env.moderation message (some bot) = cat → cat ≠ "" →
      getConversation st.db conversation_id = some conv →
      (run_chat_round env st bot_name conversation_id participant_id
          message).2.1.db.utterances =
        st.db.utterances ++
          [⟨conversation_id, "user", none, some participant_id, st.now, message,
            none, none⟩,
           ⟨conversation_id, "assistant", some bot.name, none, st.now,
            moderationWarning cat, some bot.prompt, none⟩] ∧
      (run_chat_round env st bot_name conversation_id participant_id message).2.2 =
        (if env.moderation.enabled then [Event.classifyCall message] else [])) ∧
    (∀ (env : Env) (st : ChatState)
      (bot_name conversation_id participant_id followup_instruction : String)
      (bot : Bot) (conv : Conv) (H : List Msg) (engine : Engine)
      (engines1 : List ((String × String) × Engine)),
      getBot st.db bot_name = some bot →
      cacheGetConv st conversation_id = some H → H ≠ [] →
      getConversation st.db conversation_id = some conv →
      get_or_create_engine env.os bot.model_type bot.model_id st.followupEngines =
        Except.ok (engine, engines1) →
      (run_followup_chat_round env st bot_name conversation_id participant_id
          followup_instruction).2.1.db.utterances =
        st.db.utterances ++
          [⟨conversation_id, "assistant", some bot.name, none, st.now,
            strTrim (env.complete engine (generate_system_prompt bot conv.selected_persona)
              (truncate H bot.max_transcript_length ++ [⟨"user", followup_instruction⟩])
              followup_instruction),
            some (generate_system_prompt bot conv.selected_persona),
            some (truncate H bot.max_transcript_length)⟩] ∧
      (run_followup_chat_round env st bot_name conversation_id participant_id
          followup_instruction).2.2 =
        [Event.modelCall engine (generate_system_prompt bot conv.selected_persona)
          (truncate H bot.max_transcript_length ++ [⟨"user", followup_instruction⟩])
          followup_instruction]) := by
  refine ⟨?_, ?_, ?_⟩
  · intro env st bot_name conversation_id participant_id message bot conv H engine
      engines1 h1 h2 h3 h4 h4b h5 h6
    rw [run_chat_round_model_path env st bot_name conversation_id participant_id message
      bot conv H engine engines1 h1 h2 h3 h4 h4b h5 h6]
    constructor
    · simp
    · rfl
  · intro env st bot_name conversation_id participant_id message bot conv cat h1 h2 h3
      hcat h5
    unfold run_chat_round
    rw [h1]
    simp only [Bool.false_eq_true, if_false, h2]
    rw [h3, if_pos hcat]
    simp only [save_chat_to_db, getConversation] at h5 ⊢
    simp only [h5]
    simp [List.append_assoc]
  · intro env st bot_name conversation_id participant_id followup_instruction bot conv H
      engine engines1 h2 h4 h4b h5 h6
    rw [run_followup_round_model_path env st bot_name conversation_id participant_id
      followup_instruction bot conv H engine engines1 h2 h4 h4b h5 h6]
    constructor
    · simp
    · rfl

/-- Witness for C5 at the concrete fixtures, covering the three paths. -/
theorem assistant_utterance_provenance_witness :
    ((run_chat_round env1 st1 "b" "c" "p" "hi").2.1.db.utterances =
        st1.db.utterances ++
          [⟨"c", "user", none, some "p", st1.now, "hi", none, none⟩,
           ⟨"c", "assistant", some bot1.name, none, st1.now,
            strTrim (env1.complete (Engine.openai "gpt-4o-mini")
              (generate_system_prompt bot1 conv1.selected_persona)
              (truncate hist1 bot1.max_transcript_length ++ [⟨"user", "hi"⟩]) "hi"),
            some (generate_system_prompt bot1 conv1.selected_persona),
            some (truncate hist1 bot1.max_transcript_length)⟩] ∧
      (run_chat_round env1 st1 "b" "c" "p" "hi").2.2 =
        (if env1.moderation.enabled then [Event.classifyCall "hi"] else []) ++
          [Event.modelCall (Engine.openai "gpt-4o-mini")
            (generate_system_prompt bot1 conv1.selected_persona)
            (truncate hist1 bot1.max_transcript_length ++ [⟨"user", "hi"⟩]) "hi"]) ∧
    ((run_chat_round env3 st4 "b" "c" "p" "hi").2.1.db.utterances =
        st4.db.utterances ++
          [⟨"c", "user", none, some "p", st4.now, "hi", none, none⟩,
           ⟨"c", "assistant", some bot2.name, none, st4.now,
            moderationWarning "flagged", some bot2.prompt, none⟩] ∧
      (run_chat_round env3 st4 "b" "c" "p" "hi").2.2 =
        (if env3.moderation.enabled then [Event.classifyCall "hi"] else [])) ∧
    ((run_followup_chat_round env1 st1 "b" "c" "p" "follow").2.1.db.utterances =
        st1.db.utterances ++
          [⟨"c", "assistant", some bot1.name, none, st1.now,
            strTrim (env1.complete (Engine.anthropic "claude-3")
              (generate_system_prompt bot1 conv1.selected_persona)
              (truncate hist1 bot1.max_transcript_length ++ [⟨"user", "follow"⟩]) "follow"),
            some (generate_system_prompt bot1 conv1.selected_persona),
            some (truncate hist1 bot1.max_transcript_length)⟩] ∧
      (run_followup_chat_round env1 st1 "b" "c" "p" "follow").2.2 =
        [Event.modelCall (Engine.anthropic "claude-3")
          (generate_system_prompt bot1 conv1.selected_persona)
          (truncate hist1 bot1.max_transcript_length ++ [⟨"user", "follow"⟩]) "follow"]) :=
  ⟨assistant_utterance_provenance.1 env1 st1 "b" "c" "p" "hi" bot1 conv1 hist1
     (Engine.openai "gpt-4o-mini") [(("OpenAI", "gpt-4o-mini"), Engine.openai "gpt-4o-mini")]
     (by decide) rfl rfl rfl (by decide) rfl rfl,
   assistant_utterance_provenance.2.1 env3 st4 "b" "c" "p" "hi" bot2 conv1 "flagged"
     (by decide) rfl (by decide) (by decide) rfl,
   assistant_utterance_provenance.2.2 env1 st1 "b" "c" "p" "follow" bot1 conv1 hist1
     (Engine.anthropic "claude-3") [(("Anthropic", "claude-3"), Engine.anthropic "claude-3")]
     rfl rfl (by decide) rfl rfl⟩

/-! ## Claim C6 — idempotence of the idle follow-up within one idle period -/

theorem get_last_user_message_time_append_assistant (db : DB) (u : UtteranceRec)
    (cid : String) (h : u.speaker_id = "assistant") :
    get_last_user_message_time { db with utterances := db.utterances ++ [u] } cid =
      get_last_user_message_time db cid := by
  have hc : (u.conversation_id == cid && u.speaker_id == "user") = false := by
    rw [h]
    simp
  simp [get_last_user_message_time, List.filter_append, hc]

theorem generate_followup_already_sent_path
    (env : Env) (st : ChatState) (bot_name conversation_id participant_id : String)
    (bot : Bot)
    (h2 : getBot st.db bot_name = some bot)
    (hen : bot.follow_up_on_idle = true)
    (hinstr : ¬ bot.follow_up_instruction_prompt = "")
    (hidle : is_user_idle st conversation_id bot.idle_time_minutes = true)
    (hrec : bot.recurring_followup = false)
    (honce : (cacheGetOnce st conversation_id).isSome = true) :
    generate_followup_message env st bot_name conversation_id participant_id =
      ((none, some "Follow-up already sent for this idle period (recurring disabled)"),
       st, []) := by
  unfold generate_followup_message
  rw [h2]
  simp only [hen, Bool.true_eq_false, if_false, hinstr, ite_false, hidle, if_true,
    not_false_eq_true, ite_true]
  rw [if_pos ⟨hrec, honce⟩]

theorem generate_followup_message_success_path
    (env : Env) (st : ChatState) (bot_name conversation_id participant_id : String)
    (bot : Bot) (conv : Conv) (H : List Msg) (engine : Engine)
    (engines1 : List ((String × String) × Engine))
    (h2 : getBot st.db bot_name = some bot)
    (hen : bot.follow_up_on_idle = true)
    (hinstr : ¬ bot.follow_up_instruction_prompt = "")
    (hrec : bot.recurring_followup = false)
    (hidle : is_user_idle st conversation_id bot.idle_time_minutes = true)
    (honce : cacheGetOnce st conversation_id = none)
    (hcool : cacheGetCooldown st conversation_id = none)
    (h4 : cacheGetConv st conversation_id = some H)
    (h4b : H ≠ [])
    (h5 : getConversation st.db conversation_id = some conv)
    (h6 : get_or_create_engine env.os bot.model_type bot.model_id st.followupEngines =
      Except.ok (engine, engines1)) :
    generate_followup_message env st bot_name conversation_id participant_id =
      (let system_prompt := generate_system_prompt bot conv.selected_persona
       let followup_instruction :=
         followupMarker ++ " " ++ bot.follow_up_instruction_prompt
       let conversation_history :=
         truncate H bot.max_transcript_length ++ [⟨"user", followup_instruction⟩]
       let response_text :=
         strTrim (env.complete engine system_prompt conversation_history
           followup_instruction)
       let asst_utt : UtteranceRec :=
         { conversation_id := conversation_id, speaker_id := "assistant"
           bot_name := some bot.name, participant_id := none
           created_time := st.now, text := response_text
           instruction_prompt := some system_prompt
           chat_history_used := some conversation_history.dropLast }
       let newConvCache :=
         cacheWrite st.cache.conv ("conversation_cache_" ++ conversation_id)
           (conversation_history ++ [⟨"assistant", response_text⟩]) 3600 st.now
       let newCooldown :=
         cacheWrite st.cache.cooldown ("followup_sent_" ++ conversation_id) true 30 st.now
       let newOnce :=
         cacheWrite st.cache.sentOnce ("followup_sent_once_" ++ conversation_id)
           true 3600 st.now
       ((some response_text, none),
        { st with
          db := { st.db with utterances := st.db.utterances ++ [asst_utt] }
          cache := { conv := newConvCache, cooldown := newCooldown, sentOnce := newOnce }
          followupEngines := engines1 },
        [Event.modelCall engine system_prompt conversation_history
          followup_instruction])) := by
  unfold generate_followup_message
  rw [h2]
  simp only [hen, Bool.true_eq_false, if_false, hinstr, hidle, honce, hcool, hrec,
    Option.isSome_none, Bool.false_eq_true, and_false, false_and, if_true, if_false,
    ite_false, ite_true, not_false_eq_true, Option.isSome_some]
  rw [run_followup_round_model_path env
    (cacheSetOnce (cacheSetCooldown st conversation_id 30) conversation_id 3600)
    bot_name conversation_id participant_id
    (followupMarker ++ " " ++ bot.follow_up_instruction_prompt)
    bot conv H engine engines1 h2 h4 h4b h5 h6]
  rfl

/-- Claim C6: for a follow-up-enabled, non-recurring bot and an idle user,
two immediately successive `generate_followup_message` calls yield a reply
on the first call and `(none, "already sent")` on the second; the second
call leaves the state untouched (nothing persisted) and performs no
external call (no model invocation). -/
theorem followup_second_call_already_sent
    (env : Env) (st : ChatState) (bot_name conversation_id participant_id : String)
    (bot : Bot) (conv : Conv) (H : List Msg) (engine : Engine)
    (engines1 : List ((String × String) × Engine))
    (h2 : getBot st.db bot_name = some bot)
    (hen : bot.follow_up_on_idle = true)
    (hinstr : ¬ bot.follow_up_instruction_prompt = "")
    (hrec : bot.recurring_followup = false)
    (hidle : is_user_idle st conversation_id bot.idle_time_minutes = true)
    (honce : cacheGetOnce st conversation_id = none)
    (hcool : cacheGetCooldown st conversation_id = none)
    (h4 : cacheGetConv st conversation_id = some H)
    (h4b : H ≠ [])
    (h5 : getConversation st.db conversation_id = some conv)
    (h6 : get_or_create_engine env.os bot.model_type bot.model_id st.followupEngines =
      Except.ok (engine, engines1)) :
    (∃ resp, (generate_followup_message env st bot_name conversation_id
      participant_id).1 = (some resp, none)) ∧
    generate_followup_message env
        (generate_followup_message env st bot_name conversation_id participant_id).2.1
        bot_name conversation_id participant_id =
      ((none, some "Follow-up already sent for this idle period (recurring disabled)"),
       (generate_followup_message env st bot_name conversation_id participant_id).2.1,
       []) := by
  rw [generate_followup_message_success_path env st bot_name conversation_id
    participant_id bot conv H engine engines1 h2 hen hinstr hrec hidle honce hcool h4
    h4b h5 h6]
  constructor
  · exact ⟨_, rfl⟩
  · dsimp only
    apply generate_followup_already_sent_path
    · exact h2
    · exact hen
    · exact hinstr
    · unfold is_user_idle at hidle ⊢
      dsimp only
      rw [get_last_user_message_time_append_assistant st.db _ conversation_id rfl]
      exact hidle
    · exact hrec
    · dsimp only [cacheGetOnce]
      rw [cacheRead_cacheWrite_self st.cache.sentOnce _ true 3600 st.now (by omega)]
      rfl

/-! ## Claim C8 — missing bot or conversation -/

/-- Counterexample to C8 as stated: on a state whose durable store has no
conversation record, a message that moderation blocks makes the turn
complete normally — it returns the moderation warning (no error) while
silently persisting nothing. -/
theorem missing_conversation_completes_counterexample :
    (run_chat_round env3 st3 "b" "c" "p" "bad words").1 =
      Except.ok (moderationWarning "flagged") ∧
    (run_chat_round env3 st3 "b" "c" "p" "bad words").2.1.db.utterances =
      st3.db.utterances := by
  refine ⟨by decide, by decide⟩

/-- Claim C8 (amended): a missing bot fails the turn with an error and no
persistence; a missing conversation fails the turn with an error and no
persistence on the model-invoking path; but on the moderation-blocked
path a missing conversation does not fail the turn — the turn returns the
warning text normally while silently persisting nothing (the save helper
swallows the lookup failure). -/
theorem missing_lookup_failure_semantics :
    (∀ (env : Env) (st : ChatState)
      (bot_name conversation_id participant_id message : String),
      strStartsWith message followupMarker = false →
      getBot st.db bot_name = none →
      run_chat_round env st bot_name conversation_id participant_id message =
        (Except.error ChatError.botNotFound, st, [])) ∧
    (∀ (env : Env) (st : ChatState)
      (bot_name conversation_id participant_id message : String) (bot : Bot),
      strStartsWith message followupMarker = false →
      getBot st.db bot_name = some bot →
      moderate_message env.moderation message (some bot) = "" →
      getConversation st.db conversation_id = none →
      run_chat_round env st bot_name conversation_id participant_id message =
        (Except.error ChatError.conversationNotFound, st,
         if env.moderation.enabled then [Event.classifyCall message] else [])) ∧
    (∀ (env : Env) (st : ChatState)
      (bot_name conversation_id participant_id message : String) (bot : Bot)
      (cat : String),
      strStartsWith message followupMarker = false →
      getBot st.db bot_name = some bot →
      moderate_message env.moderation message (some bot) = cat → cat ≠ "" →
      getConversation st.db conversation_id = none →
      run_chat_round env st bot_name conversation_id participant_id message =
        (Except.ok (moderationWarning cat), st,
         if env.moderation.enabled then [Event.classifyCall message] else [])) := by
  refine ⟨?_, ?_, ?_⟩
  · intro env st bot_name conversation_id participant_id message h1 h2
    unfold run_chat_round
    rw [h1]
    simp [h2]
  · intro env st bot_name conversation_id participant_id message bot h1 h2 h3 hc
    unfold run_chat_round
    rw [h1]
    simp only [Bool.false_eq_true, if_false, h2]
    rw [h3]
    simp only [ne_eq, not_true_eq_false, if_false]
    have hdb : (loadHistory st conversation_id).2 = st :=
      loadHistory_of_no_conversation st conversation_id hc
    rw [hdb, hc]
  · intro env st bot_name conversation_id participant_id message bot cat h1 h2 h3 hcat hc
    unfold run_chat_round
    rw [h1]
    simp only [Bool.false_eq_true, if_false, h2]
    rw [h3, if_pos hcat]
    rw [save_chat_to_db_of_none _ _ _ _ _ _ _ _ hc,
        save_chat_to_db_of_none _ _ _ _ _ _ _ _ hc]

/-- Witness for the amended C8 at the concrete fixtures: a missing bot
errors out, a missing conversation errors out on the clean path, and the
blocked path on `st3` returns the warning with nothing persisted. -/
theorem missing_lookup_failure_semantics_witness :
    run_chat_round env1 st1 "nosuch" "c" "p" "hi" =
      (Except.error ChatError.botNotFound, st1, []) ∧
    run_chat_round env1 st2 "b" "c" "p" "hi" =
      (Except.error ChatError.conversationNotFound, st2,
       if env1.moderation.enabled then [Event.classifyCall "hi"] else []) ∧
    run_chat_round env3 st3 "b" "c" "p" "hi" =
      (Except.ok (moderationWarning "flagged"), st3,
       if env3.moderation.enabled then [Event.classifyCall "hi"] else []) :=
  ⟨missing_lookup_failure_semantics.1 env1 st1 "nosuch" "c" "p" "hi" (by decide) rfl,
   missing_lookup_failure_semantics.2.1 env1 st2 "b" "c" "p" "hi" bot1 (by decide) rfl rfl
     rfl,
   missing_lookup_failure_semantics.2.2 env3 st3 "b" "c" "p" "hi" bot2 "flagged"
     (by decide) rfl (by decide) (by decide) rfl⟩

/-- Witness for C6 at the concrete fixtures. -/
theorem followup_second_call_already_sent_witness :
    (∃ resp, (generate_followup_message env1 st1 "b" "c" "p").1 = (some resp, none)) ∧
    generate_followup_message env1
        (generate_followup_message env1 st1 "b" "c" "p").2.1 "b" "c" "p" =
      ((none, some "Follow-up already sent for this idle period (recurring disabled)"),
       (generate_followup_message env1 st1 "b" "c" "p").2.1, []) :=
  followup_second_call_already_sent env1 st1 "b" "c" "p" bot1 conv1 hist1
    (Engine.anthropic "claude-3")
    [(("Anthropic", "claude-3"), Engine.anthropic "claude-3")]
    rfl rfl (by decide) rfl (by decide) rfl rfl rfl (by decide) rfl rfl

/-! ## Claim C4 — re-eligibility after the one-shot flag -/

/-- Counterexample to C4 as stated: at time 200 a first follow-up fires
and sets the one-shot flag; at time 300 a genuine new user message is
recorded; at time 500 the user is idle again and the 30-second cooldown
has long expired, yet `generate_followup_message` still answers "already
sent" — recording a new user message did not clear the one-shot flag, so
re-eligibility does require the explicit reset operation (or the flag's
one-hour expiry). -/
theorem followup_new_user_message_counterexample :
    (generate_followup_message env1 st1 "b" "c" "p").1 = (some "ok", none) ∧
    (run_chat_round env1 st5 "b" "c" "p" "im back").1 = Except.ok "ok" ∧
    is_user_idle st6 "c" bot1.idle_time_minutes = true ∧
    cacheGetCooldown st6 "c" = none ∧
    (generate_followup_message env1 st6 "b" "c" "p").1 =
      (none, some "Follow-up already sent for this idle period (recurring disabled)") := by
  refine ⟨by decide, by decide, by decide, by decide, by decide⟩

theorem cacheGetOnce_reset (st : ChatState) (cid : String) :
    cacheGetOnce (reset_followup_flag st cid) cid = none := by
  unfold cacheGetOnce reset_followup_flag cacheDeleteOnce cacheRead
  have hfind : ((st.cache.sentOnce.filter
      (fun p => !(p.1 == "followup_sent_once_" ++ cid))).find?
        (fun p => p.1 == "followup_sent_once_" ++ cid)) = none := by
    rw [List.find?_eq_none]
    intro x hx
    have hx2 := (List.mem_filter.mp hx).2
    simp only [Bool.not_eq_true'] at hx2
    simp [hx2]
  rw [hfind]

/-- Claim C4 (amended): the one-shot flag is not cleared when a genuine
new user message arrives — while the flag lives, an idle-time
`generate_followup_message` call answers "already sent" regardless of any
interleaved user activity; re-eligibility within the flag's lifetime
requires the dedicated explicit reset operation (`reset_flag`), after
which the next idle call succeeds again. -/
theorem followup_reeligibility_requires_reset :
    (∀ (env : Env) (st : ChatState)
      (bot_name conversation_id participant_id : String) (bot : Bot),
      getBot st.db bot_name = some bot →
      bot.follow_up_on_idle = true →
      ¬ bot.follow_up_instruction_prompt = "" →
      is_user_idle st conversation_id bot.idle_time_minutes = true →
      bot.recurring_followup = false →
      (cacheGetOnce st conversation_id).isSome = true →
      generate_followup_message env st bot_name conversation_id participant_id =
        ((none, some "Follow-up already sent for this idle period (recurring disabled)"),
         st, [])) ∧
    (∀ (env : Env) (st : ChatState)
      (bot_name conversation_id participant_id : String)
      (bot : Bot) (conv : Conv) (H : List Msg) (engine : Engine)
      (engines1 : List ((String × String) × Engine)),
      getBot st.db bot_name = some bot →
      bot.follow_up_on_idle = true →
      ¬ bot.follow_up_instruction_prompt = "" →
      bot.recurring_followup = false →
      is_user_idle st conversation_id bot.idle_time_minutes = true →
      cacheGetCooldown st conversation_id = none →
      cacheGetConv st conversation_id = some H → H ≠ [] →
      getConversation st.db conversation_id = some conv →
      get_or_create_engine env.os bot.model_type bot.model_id st.followupEngines =
        Except.ok (engine, engines1) →
      ∃ resp, (generate_followup_message env (reset_followup_flag st conversation_id)
        bot_name conversation_id participant_id).1 = (some resp, none)) := by
  constructor
  · intro env st bot_name conversation_id participant_id bot h2 hen hinstr hidle hrec
      honce
    exact generate_followup_already_sent_path env st bot_name conversation_id
      participant_id bot h2 hen hinstr hidle hrec honce
  · intro env st bot_name conversation_id participant_id bot conv H engine engines1
      h2 hen hinstr hrec hidle hcool h4 h4b h5 h6
    rw [generate_followup_message_success_path env (reset_followup_flag st conversation_id)
      bot_name conversation_id participant_id bot conv H engine engines1 h2 hen hinstr
      hrec hidle (cacheGetOnce_reset st conversation_id) hcool h4 h4b h5 h6]
    exact ⟨_, rfl⟩

/-- Witness for the amended C4: on `st6` (flag set, user idle again after
a genuine new message, cooldown expired) the call still answers "already
sent" and leaves the state untouched; on `st7` (flag set) the explicit
reset restores eligibility and the next idle call yields a reply. -/
theorem followup_reeligibility_requires_reset_witness :
    generate_followup_message env1 st6 "b" "c" "p" =
      ((none, some "Follow-up already sent for this idle period (recurring disabled)"),
       st6, []) ∧
    (∃ resp, (generate_followup_message env1 (reset_followup_flag st7 "c")
      "b" "c" "p").1 = (some resp, none)) :=
  ⟨followup_reeligibility_requires_reset.1 env1 st6 "b" "c" "p" bot1
     (by decide) rfl (by decide) (by decide) rfl (by decide),
   followup_reeligibility_requires_reset.2 env1 st7 "b" "c" "p" bot1 conv1 hist1
     (Engine.anthropic "claude-3")
     [(("Anthropic", "claude-3"), Engine.anthropic "claude-3")]
     rfl rfl (by decide) rfl (by decide) rfl rfl (by decide) rfl rfl⟩

/-! ## Claim C10 — the follow-up path resolves its engine from the legacy
fields -/

theorem init_engine_ok_of_supported (os : OSEnv) (t id : String)
    (hos : os.openai_key = true ∧ os.anthropic_key = true ∧ os.aws_keys = true)
    (hsup : t = "OpenAI" ∨ t = "Anthropic" ∨ t = "Bedrock") :
    ∃ e, init_engine os t id = Except.ok e ∧ engineKeyOf e = (t, id) := by
  rcases hsup with h | h | h
  · exact ⟨Engine.openai id, by simp [init_engine, h, hos.1], by simp [engineKeyOf, h]⟩
  · exact ⟨Engine.anthropic id, by simp [init_engine, h, hos.2.1],
      by simp [engineKeyOf, h]⟩
  · exact ⟨Engine.bedrock id, by simp [init_engine, h, hos.2.2],
      by simp [engineKeyOf, h]⟩

theorem init_engine_from_model_ok_of_supported (os : OSEnv) (m : AIModel)
    (hos : os.openai_key = true ∧ os.anthropic_key = true ∧ os.aws_keys = true)
    (hsup : m.provider_name = "OpenAI" ∨ m.provider_name = "Anthropic" ∨
      m.provider_name = "Bedrock") :
    ∃ e, init_engine_from_model os m = Except.ok e ∧
      engineKeyOf e = (m.provider_name, m.model_id) := by
  rcases hsup with h | h | h
  · exact ⟨Engine.openai m.model_id, by simp [init_engine_from_model, h, hos.1],
      by simp [engineKeyOf, h]⟩
  · exact ⟨Engine.anthropic m.model_id, by simp [init_engine_from_model, h, hos.2.1],
      by simp [engineKeyOf, h]⟩
  · exact ⟨Engine.bedrock m.model_id, by simp [init_engine_from_model, h, hos.2.2],
      by simp [engineKeyOf, h]⟩

theorem get_or_create_engine_nil (os : OSEnv) (t id : String) (e : Engine)
    (h : init_engine os t id = Except.ok e) :
    get_or_create_engine os t id [] = Except.ok (e, [((t, id), e)]) := by
  simp [get_or_create_engine, List.find?, h]

theorem get_or_create_engine_from_model_nil (os : OSEnv) (m : AIModel) (e : Engine)
    (h : init_engine_from_model os m = Except.ok e) :
    get_or_create_engine_from_model os m [] =
      Except.ok (e, [((m.provider_name, m.model_id), e)]) := by
  simp [get_or_create_engine_from_model, List.find?, h]

/-- Claim C10: the follow-up turn resolves its engine solely from the
bot's legacy `model_type`/`model_id` fields, while the regular turn
resolves it from the `ai_model` reference; when the two disagree (both
naming supported providers, credentials present), the two turns of the
same conversation invoke different model backends. -/
theorem followup_engine_resolved_from_legacy_fields
    (env : Env) (st : ChatState)
    (bot_name conversation_id participant_id message followup_instruction : String)
    (bot : Bot) (conv : Conv) (H : List Msg)
    (h1 : strStartsWith message followupMarker = false)
    (h2 : getBot st.db bot_name = some bot)
    (h3 : moderate_message env.moderation message (some bot) = "")
    (h4 : cacheGetConv st conversation_id = some H)
    (h4b : H ≠ [])
    (h5 : getConversation st.db conversation_id = some conv)
    (hos : env.os.openai_key = true ∧ env.os.anthropic_key = true ∧
      env.os.aws_keys = true)
    (hsupL : bot.model_type = "OpenAI" ∨ bot.model_type = "Anthropic" ∨
      bot.model_type = "Bedrock")
    (hsupP : bot.ai_model.provider_name = "OpenAI" ∨
      bot.ai_model.provider_name = "Anthropic" ∨
      bot.ai_model.provider_name = "Bedrock")
    (hempty1 : st.engines = [])
    (hempty2 : st.followupEngines = [])
    (hdiff : (bot.model_type, bot.model_id) ≠
      (bot.ai_model.provider_name, bot.ai_model.model_id)) :
    ∃ er ef,
      init_engine_from_model env.os bot.ai_model = Except.ok er ∧
      init_engine env.os bot.model_type bot.model_id = Except.ok ef ∧
      engineKeyOf er = (bot.ai_model.provider_name, bot.ai_model.model_id) ∧
      engineKeyOf ef = (bot.model_type, bot.model_id) ∧
      (run_chat_round env st bot_name conversation_id participant_id message).2.2 =
        (if env.moderation.enabled then [Event.classifyCall message] else []) ++
          [Event.modelCall er (generate_system_prompt bot conv.selected_persona)
            (truncate H bot.max_transcript_length ++ [⟨"user", message⟩]) message] ∧
      (run_followup_chat_round env st bot_name conversation_id participant_id
        followup_instruction).2.2 =
        [Event.modelCall ef (generate_system_prompt bot conv.selected_persona)
          (truncate H bot.max_transcript_length ++ [⟨"user", followup_instruction⟩])
          followup_instruction] ∧
      er ≠ ef := by
  obtain ⟨er, her, hker⟩ := init_engine_from_model_ok_of_supported env.os bot.ai_model
    hos hsupP
  obtain ⟨ef, hef, hkef⟩ := init_engine_ok_of_supported env.os bot.model_type
    bot.model_id hos hsupL
  have h6r : get_or_create_engine_from_model env.os bot.ai_model st.engines =
      Except.ok (er, [((bot.ai_model.provider_name, bot.ai_model.model_id), er)]) := by
    rw [hempty1]
    exact get_or_create_engine_from_model_nil env.os bot.ai_model er her
  have h6f : get_or_create_engine env.os bot.model_type bot.model_id
      st.followupEngines =
      Except.ok (ef, [((bot.model_type, bot.model_id), ef)]) := by
    rw [hempty2]
    exact get_or_create_engine_nil env.os bot.model_type bot.model_id ef hef
  refine ⟨er, ef, her, hef, hker, hkef, ?_, ?_, ?_⟩
  · rw [run_chat_round_model_path env st bot_name conversation_id participant_id
      message bot conv H er _ h1 h2 h3 h4 h4b h5 h6r]
  · rw [run_followup_round_model_path env st bot_name conversation_id participant_id
      followup_instruction bot conv H ef _ h2 h4 h4b h5 h6f]
  · intro heq
    apply hdiff
    have : engineKeyOf er = engineKeyOf ef := by rw [heq]
    rw [hker, hkef] at this
    exact this.symm

/-- Witness for C10 at the concrete fixtures: `bot1` carries legacy
fields (Anthropic, claude-3) while its `ai_model` is (OpenAI,
gpt-4o-mini); the regular turn invokes the OpenAI engine and the
follow-up turn the Anthropic engine. -/
theorem followup_engine_resolved_from_legacy_fields_witness :
    ∃ er ef,
      init_engine_from_model env1.os bot1.ai_model = Except.ok er ∧
      init_engine env1.os bot1.model_type bot1.model_id = Except.ok ef ∧
      engineKeyOf er = (bot1.ai_model.provider_name, bot1.ai_model.model_id) ∧
      engineKeyOf ef = (bot1.model_type, bot1.model_id) ∧
      (run_chat_round env1 st1 "b" "c" "p" "hi").2.2 =
        (if env1.moderation.enabled then [Event.classifyCall "hi"] else []) ++
          [Event.modelCall er (generate_system_prompt bot1 conv1.selected_persona)
            (truncate hist1 bot1.max_transcript_length ++ [⟨"user", "hi"⟩]) "hi"] ∧
      (run_followup_chat_round env1 st1 "b" "c" "p" "follow").2.2 =
        [Event.modelCall ef (generate_system_prompt bot1 conv1.selected_persona)
          (truncate hist1 bot1.max_transcript_length ++ [⟨"user", "follow"⟩])
          "follow"] ∧
      er ≠ ef :=
  followup_engine_resolved_from_legacy_fields env1 st1 "b" "c" "p" "hi" "follow"
    bot1 conv1 hist1 (by decide) rfl rfl rfl (by decide) rfl
    ⟨rfl, rfl, rfl⟩ (Or.inr (Or.inl rfl)) (Or.inl rfl) rfl rfl (by decide)

end Chatbot
